import Mathlib

/-!
Verification development for the match-extraction and normalization engine of
the `uefa-internal-bet` repository (source file `src/dml/get-results.py`).

The Python source is shallowly embedded: each Python function is translated to
an executable Lean definition over explicit models of its inputs.  Scraped
HTML fragments (BeautifulSoup nodes) are modelled by the `Node` tree type;
`datetime.now()` is modelled by an explicit `PyDate` parameter threaded through
every function that reads the clock; Python regular-expression searches are
hand-compiled to specialized scanners with the same backtracking semantics;
`hashlib.md5` is implemented bit-faithfully over `Nat` with explicit `% 2^32`.
All string inputs of interest are ASCII, and character-level operations
(`lower`, `upper`, whitespace) are modelled on that basis.
-/

/-! ## Python-style character and string helpers -/

/-- Python `\s` / `str.strip` whitespace class (ASCII). -/
def pyWs (c : Char) : Bool :=
  c = ' ' || c = '\t' || c = '\n' || c = '\r' || c = '\x0b' || c = '\x0c'

/-- Python `str.strip()` on a character list. -/
def pyStripChars (cs : List Char) : List Char :=
  ((cs.dropWhile pyWs).reverse.dropWhile pyWs).reverse

/-- Python `str.strip()`. -/
def pyStrip (s : String) : String := ⟨pyStripChars s.data⟩

/-- Python `str.lower()` (ASCII). -/
def pyLower (s : String) : String := ⟨s.data.map Char.toLower⟩

/-- Python `str.upper()` (ASCII). -/
def pyUpper (s : String) : String := ⟨s.data.map Char.toUpper⟩

/-- Does `pat` occur at the start of `s` (character lists)? -/
def charsStartWith : List Char → List Char → Bool
  | [], _ => true
  | _ :: _, [] => false
  | p :: ps, c :: cs => p = c && charsStartWith ps cs

/-- Does `pat` occur anywhere inside `s` (character lists)?  Python `pat in s`. -/
def charsContain (s pat : List Char) : Bool :=
  match s with
  | [] => pat.isEmpty
  | _ :: rest => charsStartWith pat s || charsContain rest pat

/-- Python substring test `pat in s`. -/
def strContainsSub (s pat : String) : Bool := charsContain s.data pat.data

/-- Case-insensitive substring test (used for BeautifulSoup class regexes). -/
def strContainsCI (s pat : String) : Bool :=
  charsContain (pyLower s).data (pyLower pat).data

/-- Python `s.replace(pat, rep)` (all non-overlapping occurrences, left to
right), fuelled by the length so that it is structurally recursive. -/
def pyReplaceAux (pat rep : List Char) : Nat → List Char → List Char
  | 0, s => s
  | _ + 1, [] => []
  | fuel + 1, c :: cs =>
    if charsStartWith pat (c :: cs) && !pat.isEmpty then
      rep ++ pyReplaceAux pat rep fuel (cs.drop (pat.length - 1))
    else c :: pyReplaceAux pat rep fuel cs

/-- Python `s.replace(pat, rep)`. -/
def pyReplace (s pat rep : String) : String :=
  ⟨pyReplaceAux pat.data rep.data s.data.length s.data⟩

/-- Python `s.split(sep)` for a one-character separator (no run collapsing;
`"".split(sep)` is `[""]`). -/
def pySplitAux (sep : Char) : List Char → List Char → List String
  | [], acc => [⟨acc.reverse⟩]
  | c :: cs, acc =>
    if c = sep then ⟨acc.reverse⟩ :: pySplitAux sep cs []
    else pySplitAux sep cs (c :: acc)

/-- Python `s.split(sep)` for a one-character separator. -/
def pySplitChar (s : String) (sep : Char) : List String :=
  pySplitAux sep s.data []

/-- Python `sep.join(parts)`. -/
def joinSep (sep : String) : List String → String
  | [] => ""
  | [x] => x
  | x :: y :: xs => x ++ sep ++ joinSep sep (y :: xs)

/-- Python `str.isdigit()` for ASCII strings: nonempty and all digits. -/
def pyIsDigit (s : String) : Bool := !s.data.isEmpty && s.data.all Char.isDigit

/-- Numeric value of a nonempty ASCII digit string (Python `int` on digits). -/
def digitsToNat (cs : List Char) : Nat :=
  cs.foldl (fun a c => 10 * a + (c.toNat - 48)) 0

/-- Python `int(s)`: strip whitespace, optional sign, then digits; `none` models
`ValueError`.  (Underscore separators, accepted by newer CPython, never occur
in this repository's inputs and are not modelled.) -/
def pyInt (s : String) : Option Int :=
  match pyStripChars s.data with
  | '-' :: rest => if !rest.isEmpty && rest.all Char.isDigit
      then some (-(digitsToNat rest : Int)) else none
  | '+' :: rest => if !rest.isEmpty && rest.all Char.isDigit
      then some ((digitsToNat rest : Int)) else none
  | rest => if !rest.isEmpty && rest.all Char.isDigit
      then some ((digitsToNat rest : Int)) else none

/-- Replace every whitespace run by a single space: Python `re.sub(r'\s+', ' ', s)`. -/
def squeezeWsChars : List Char → List Char
  | [] => []
  | [c] => [if pyWs c then ' ' else c]
  | c :: c2 :: cs =>
    if pyWs c && pyWs c2 then squeezeWsChars (c2 :: cs)
    else (if pyWs c then ' ' else c) :: squeezeWsChars (c2 :: cs)

/-- Python `re.sub(r'\s+', ' ', s)`. -/
def squeezeWs (s : String) : String := ⟨squeezeWsChars s.data⟩

/-- Python `re.sub(r'^\d+\.?\s*', '', s)`: drop a leading digit run, one
optional dot, and following whitespace. -/
def stripLeadNum (s : String) : String :=
  match s.data with
  | c :: _ =>
    if c.isDigit then
      let r1 := s.data.dropWhile Char.isDigit
      let r2 := match r1 with
        | '.' :: r => r
        | r => r
      ⟨r2.dropWhile pyWs⟩
    else s
  | [] => s

/-! ## Calendar dates (`datetime.date` model) -/

/-- A Python `datetime` at midnight, i.e. a calendar date. -/
structure PyDate where
  year : Int
  month : Int
  day : Int
deriving DecidableEq, Repr

/-- Leap-year rule used by `datetime`. -/
def isLeap (y : Int) : Bool := y % 4 = 0 && (y % 100 ≠ 0 || y % 400 = 0)

/-- Days in a month of a given year. -/
def daysInMonth (y m : Int) : Int :=
  if m = 2 then (if isLeap y then 29 else 28)
  else if m = 4 || m = 6 || m = 9 || m = 11 then 30
  else 31

/-- `datetime(year, month, day)`: `none` models the `ValueError` raised for
out-of-range components (`datetime.MINYEAR = 1`, `MAXYEAR = 9999`). -/
def mkDate (y m d : Int) : Option PyDate :=
  if 1 ≤ y && y ≤ 9999 && 1 ≤ m && m ≤ 12 && 1 ≤ d && d ≤ daysInMonth y m
  then some ⟨y, m, d⟩ else none

/-- Lexicographic `≤` on dates (`datetime` comparison). -/
def dateLe (a b : PyDate) : Bool :=
  a.year < b.year || (a.year = b.year &&
    (a.month < b.month || (a.month = b.month && a.day ≤ b.day)))

/-- Lexicographic `<` on dates. -/
def dateLt (a b : PyDate) : Bool :=
  a.year < b.year || (a.year = b.year &&
    (a.month < b.month || (a.month = b.month && a.day < b.day)))

/-- Zero-pad the decimal form of a nonnegative integer to `w` digits
(`strftime` style). -/
def padNum (w : Nat) (n : Int) : String :=
  let s := toString n
  if s.length < w then ⟨List.replicate (w - s.length) '0' ++ s.data⟩ else s

/-- `dt.strftime("%Y-%m-%d")`. -/
def fmtYMD (d : PyDate) : String :=
  padNum 4 d.year ++ "-" ++ padNum 2 d.month ++ "-" ++ padNum 2 d.day

/-- Python `s.zfill(2)` on a matched digit group. -/
def zfill2 (s : String) : String :=
  if s.length < 2 then ⟨List.replicate (2 - s.length) '0' ++ s.data⟩ else s

/-! ## `datetime.strptime(s, "%Y-%m-%d")`

CPython's `_strptime` compiles `%Y` to exactly four digits, `%m` to
`1[0-2]|0[1-9]|[1-9]`, `%d` to `3[01]|[12]\d|0[1-9]|[1-9]`, requires the whole
string to be consumed, and then validates the calendar date. -/

/-- Take exactly `n` digits from the front. -/
def takeDigitsExact : Nat → List Char → Option (Nat × List Char)
  | 0, cs => some (0, cs)
  | n + 1, c :: cs =>
    if c.isDigit then
      match takeDigitsExact n cs with
      | some (v, rest) => some ((c.toNat - 48) * 10 ^ n + v, rest)
      | none => none
    else none
  | _ + 1, [] => none

/-- Parse `%m` or `%d`: two digits if they form a value in `[1, hi]`,
else one digit in `[1, 9]`; returns the value and the rest.  The two-digit
alternative is tried first (as in the compiled regex), and when it succeeds the
one-digit alternative can never rescue a failing continuation, because the
second digit can not match the separators that follow in our formats. -/
def takeNum2 (hi : Nat) : List Char → Option (Nat × List Char)
  | c1 :: c2 :: rest =>
    if c1.isDigit && c2.isDigit then
      let v := (c1.toNat - 48) * 10 + (c2.toNat - 48)
      if 1 ≤ v && v ≤ hi then some (v, rest) else
        none
    else if c1.isDigit && (c1.toNat - 48) ≥ 1 then some (c1.toNat - 48, c2 :: rest)
    else none
  | [c1] => if c1.isDigit && (c1.toNat - 48) ≥ 1 then some (c1.toNat - 48, []) else none
  | [] => none

/-- `strptime(s, "%Y-%m-%d")` returning a validated date. -/
def parseYMD (s : String) : Option PyDate :=
  match takeDigitsExact 4 s.data with
  | some (y, '-' :: r1) =>
    match takeNum2 12 r1 with
    | some (m, '-' :: r2) =>
      match takeNum2 31 r2 with
      | some (d, []) => mkDate (y : Int) (m : Int) (d : Int)
      | _ => none
    | _ => none
  | _ => none

/-! ## MD5 (`hashlib.md5`) -/

/-- 2^32. -/
def M32 : Nat := 4294967296

/-- Bitwise complement within 32 bits (operands are `< 2^32`). -/
def bnot32 (a : Nat) : Nat := 4294967295 - a

/-- 32-bit left rotation. -/
def rotl32 (x n : Nat) : Nat := ((x <<< n) % M32) ||| (x >>> (32 - n))

/-- Little-endian byte decomposition. -/
def leBytes : Nat → Nat → List Nat
  | 0, _ => []
  | k + 1, v => v % 256 :: leBytes k (v / 256)

/-- Group a byte list into little-endian 32-bit words. -/
def toWords : List Nat → List Nat
  | b0 :: b1 :: b2 :: b3 :: rest =>
    (b0 + 256 * b1 + 65536 * b2 + 16777216 * b3) :: toWords rest
  | _ => []

/-- Process one 64-byte block: the 64 rounds unrolled into let-bindings so
that the kernel evaluates the compression function by arithmetic alone. -/
def md5Block (h : Nat × Nat × Nat × Nat) (block : List Nat) :
    Nat × Nat × Nat × Nat :=
  let M := toWords block
  let m0 := M.getD 0 0
  let m1 := M.getD 1 0
  let m2 := M.getD 2 0
  let m3 := M.getD 3 0
  let m4 := M.getD 4 0
  let m5 := M.getD 5 0
  let m6 := M.getD 6 0
  let m7 := M.getD 7 0
  let m8 := M.getD 8 0
  let m9 := M.getD 9 0
  let m10 := M.getD 10 0
  let m11 := M.getD 11 0
  let m12 := M.getD 12 0
  let m13 := M.getD 13 0
  let m14 := M.getD 14 0
  let m15 := M.getD 15 0
  let a0 := h.1
  let b0 := h.2.1
  let c0 := h.2.2.1
  let d0 := h.2.2.2
  let t0 := (b0 + rotl32 (((((b0 &&& c0) ||| (bnot32 b0 &&& d0))) + a0 + 3614090360 + m0) % M32) 7) % M32
  let t1 := (t0 + rotl32 (((((t0 &&& b0) ||| (bnot32 t0 &&& c0))) + d0 + 3905402710 + m1) % M32) 12) % M32
  let t2 := (t1 + rotl32 (((((t1 &&& t0) ||| (bnot32 t1 &&& b0))) + c0 + 606105819 + m2) % M32) 17) % M32
  let t3 := (t2 + rotl32 (((((t2 &&& t1) ||| (bnot32 t2 &&& t0))) + b0 + 3250441966 + m3) % M32) 22) % M32
  let t4 := (t3 + rotl32 (((((t3 &&& t2) ||| (bnot32 t3 &&& t1))) + t0 + 4118548399 + m4) % M32) 7) % M32
  let t5 := (t4 + rotl32 (((((t4 &&& t3) ||| (bnot32 t4 &&& t2))) + t1 + 1200080426 + m5) % M32) 12) % M32
  let t6 := (t5 + rotl32 (((((t5 &&& t4) ||| (bnot32 t5 &&& t3))) + t2 + 2821735955 + m6) % M32) 17) % M32
  let t7 := (t6 + rotl32 (((((t6 &&& t5) ||| (bnot32 t6 &&& t4))) + t3 + 4249261313 + m7) % M32) 22) % M32
  let t8 := (t7 + rotl32 (((((t7 &&& t6) ||| (bnot32 t7 &&& t5))) + t4 + 1770035416 + m8) % M32) 7) % M32
  let t9 := (t8 + rotl32 (((((t8 &&& t7) ||| (bnot32 t8 &&& t6))) + t5 + 2336552879 + m9) % M32) 12) % M32
  let t10 := (t9 + rotl32 (((((t9 &&& t8) ||| (bnot32 t9 &&& t7))) + t6 + 4294925233 + m10) % M32) 17) % M32
  let t11 := (t10 + rotl32 (((((t10 &&& t9) ||| (bnot32 t10 &&& t8))) + t7 + 2304563134 + m11) % M32) 22) % M32
  let t12 := (t11 + rotl32 (((((t11 &&& t10) ||| (bnot32 t11 &&& t9))) + t8 + 1804603682 + m12) % M32) 7) % M32
  let t13 := (t12 + rotl32 (((((t12 &&& t11) ||| (bnot32 t12 &&& t10))) + t9 + 4254626195 + m13) % M32) 12) % M32
  let t14 := (t13 + rotl32 (((((t13 &&& t12) ||| (bnot32 t13 &&& t11))) + t10 + 2792965006 + m14) % M32) 17) % M32
  let t15 := (t14 + rotl32 (((((t14 &&& t13) ||| (bnot32 t14 &&& t12))) + t11 + 1236535329 + m15) % M32) 22) % M32
  let t16 := (t15 + rotl32 (((((t13 &&& t15) ||| (bnot32 t13 &&& t14))) + t12 + 4129170786 + m1) % M32) 5) % M32
  let t17 := (t16 + rotl32 (((((t14 &&& t16) ||| (bnot32 t14 &&& t15))) + t13 + 3225465664 + m6) % M32) 9) % M32
  let t18 := (t17 + rotl32 (((((t15 &&& t17) ||| (bnot32 t15 &&& t16))) + t14 + 643717713 + m11) % M32) 14) % M32
  let t19 := (t18 + rotl32 (((((t16 &&& t18) ||| (bnot32 t16 &&& t17))) + t15 + 3921069994 + m0) % M32) 20) % M32
  let t20 := (t19 + rotl32 (((((t17 &&& t19) ||| (bnot32 t17 &&& t18))) + t16 + 3593408605 + m5) % M32) 5) % M32
  let t21 := (t20 + rotl32 (((((t18 &&& t20) ||| (bnot32 t18 &&& t19))) + t17 + 38016083 + m10) % M32) 9) % M32
  let t22 := (t21 + rotl32 (((((t19 &&& t21) ||| (bnot32 t19 &&& t20))) + t18 + 3634488961 + m15) % M32) 14) % M32
  let t23 := (t22 + rotl32 (((((t20 &&& t22) ||| (bnot32 t20 &&& t21))) + t19 + 3889429448 + m4) % M32) 20) % M32
  let t24 := (t23 + rotl32 (((((t21 &&& t23) ||| (bnot32 t21 &&& t22))) + t20 + 568446438 + m9) % M32) 5) % M32
  let t25 := (t24 + rotl32 (((((t22 &&& t24) ||| (bnot32 t22 &&& t23))) + t21 + 3275163606 + m14) % M32) 9) % M32
  let t26 := (t25 + rotl32 (((((t23 &&& t25) ||| (bnot32 t23 &&& t24))) + t22 + 4107603335 + m3) % M32) 14) % M32
  let t27 := (t26 + rotl32 (((((t24 &&& t26) ||| (bnot32 t24 &&& t25))) + t23 + 1163531501 + m8) % M32) 20) % M32
  let t28 := (t27 + rotl32 (((((t25 &&& t27) ||| (bnot32 t25 &&& t26))) + t24 + 2850285829 + m13) % M32) 5) % M32
  let t29 := (t28 + rotl32 (((((t26 &&& t28) ||| (bnot32 t26 &&& t27))) + t25 + 4243563512 + m2) % M32) 9) % M32
  let t30 := (t29 + rotl32 (((((t27 &&& t29) ||| (bnot32 t27 &&& t28))) + t26 + 1735328473 + m7) % M32) 14) % M32
  let t31 := (t30 + rotl32 (((((t28 &&& t30) ||| (bnot32 t28 &&& t29))) + t27 + 2368359562 + m12) % M32) 20) % M32
  let t32 := (t31 + rotl32 ((((t31 ^^^ t30 ^^^ t29)) + t28 + 4294588738 + m5) % M32) 4) % M32
  let t33 := (t32 + rotl32 ((((t32 ^^^ t31 ^^^ t30)) + t29 + 2272392833 + m8) % M32) 11) % M32
  let t34 := (t33 + rotl32 ((((t33 ^^^ t32 ^^^ t31)) + t30 + 1839030562 + m11) % M32) 16) % M32
  let t35 := (t34 + rotl32 ((((t34 ^^^ t33 ^^^ t32)) + t31 + 4259657740 + m14) % M32) 23) % M32
  let t36 := (t35 + rotl32 ((((t35 ^^^ t34 ^^^ t33)) + t32 + 2763975236 + m1) % M32) 4) % M32
  let t37 := (t36 + rotl32 ((((t36 ^^^ t35 ^^^ t34)) + t33 + 1272893353 + m4) % M32) 11) % M32
  let t38 := (t37 + rotl32 ((((t37 ^^^ t36 ^^^ t35)) + t34 + 4139469664 + m7) % M32) 16) % M32
  let t39 := (t38 + rotl32 ((((t38 ^^^ t37 ^^^ t36)) + t35 + 3200236656 + m10) % M32) 23) % M32
  let t40 := (t39 + rotl32 ((((t39 ^^^ t38 ^^^ t37)) + t36 + 681279174 + m13) % M32) 4) % M32
  let t41 := (t40 + rotl32 ((((t40 ^^^ t39 ^^^ t38)) + t37 + 3936430074 + m0) % M32) 11) % M32
  let t42 := (t41 + rotl32 ((((t41 ^^^ t40 ^^^ t39)) + t38 + 3572445317 + m3) % M32) 16) % M32
  let t43 := (t42 + rotl32 ((((t42 ^^^ t41 ^^^ t40)) + t39 + 76029189 + m6) % M32) 23) % M32
  let t44 := (t43 + rotl32 ((((t43 ^^^ t42 ^^^ t41)) + t40 + 3654602809 + m9) % M32) 4) % M32
  let t45 := (t44 + rotl32 ((((t44 ^^^ t43 ^^^ t42)) + t41 + 3873151461 + m12) % M32) 11) % M32
  let t46 := (t45 + rotl32 ((((t45 ^^^ t44 ^^^ t43)) + t42 + 530742520 + m15) % M32) 16) % M32
  let t47 := (t46 + rotl32 ((((t46 ^^^ t45 ^^^ t44)) + t43 + 3299628645 + m2) % M32) 23) % M32
  let t48 := (t47 + rotl32 ((((t46 ^^^ (t47 ||| bnot32 t45))) + t44 + 4096336452 + m0) % M32) 6) % M32
  let t49 := (t48 + rotl32 ((((t47 ^^^ (t48 ||| bnot32 t46))) + t45 + 1126891415 + m7) % M32) 10) % M32
  let t50 := (t49 + rotl32 ((((t48 ^^^ (t49 ||| bnot32 t47))) + t46 + 2878612391 + m14) % M32) 15) % M32
  let t51 := (t50 + rotl32 ((((t49 ^^^ (t50 ||| bnot32 t48))) + t47 + 4237533241 + m5) % M32) 21) % M32
  let t52 := (t51 + rotl32 ((((t50 ^^^ (t51 ||| bnot32 t49))) + t48 + 1700485571 + m12) % M32) 6) % M32
  let t53 := (t52 + rotl32 ((((t51 ^^^ (t52 ||| bnot32 t50))) + t49 + 2399980690 + m3) % M32) 10) % M32
  let t54 := (t53 + rotl32 ((((t52 ^^^ (t53 ||| bnot32 t51))) + t50 + 4293915773 + m10) % M32) 15) % M32
  let t55 := (t54 + rotl32 ((((t53 ^^^ (t54 ||| bnot32 t52))) + t51 + 2240044497 + m1) % M32) 21) % M32
  let t56 := (t55 + rotl32 ((((t54 ^^^ (t55 ||| bnot32 t53))) + t52 + 1873313359 + m8) % M32) 6) % M32
  let t57 := (t56 + rotl32 ((((t55 ^^^ (t56 ||| bnot32 t54))) + t53 + 4264355552 + m15) % M32) 10) % M32
  let t58 := (t57 + rotl32 ((((t56 ^^^ (t57 ||| bnot32 t55))) + t54 + 2734768916 + m6) % M32) 15) % M32
  let t59 := (t58 + rotl32 ((((t57 ^^^ (t58 ||| bnot32 t56))) + t55 + 1309151649 + m13) % M32) 21) % M32
  let t60 := (t59 + rotl32 ((((t58 ^^^ (t59 ||| bnot32 t57))) + t56 + 4149444226 + m4) % M32) 6) % M32
  let t61 := (t60 + rotl32 ((((t59 ^^^ (t60 ||| bnot32 t58))) + t57 + 3174756917 + m11) % M32) 10) % M32
  let t62 := (t61 + rotl32 ((((t60 ^^^ (t61 ||| bnot32 t59))) + t58 + 718787259 + m2) % M32) 15) % M32
  let t63 := (t62 + rotl32 ((((t61 ^^^ (t62 ||| bnot32 t60))) + t59 + 3951481745 + m9) % M32) 21) % M32
  ((a0 + t60) % M32, (b0 + t63) % M32, (c0 + t62) % M32, (d0 + t61) % M32)

/-- Split into 64-byte chunks (fuelled by the length). -/
def chunks64Aux : Nat → List Nat → List (List Nat)
  | 0, _ => []
  | _ + 1, [] => []
  | n + 1, l => l.take 64 :: chunks64Aux n (l.drop 64)

/-- Split into 64-byte chunks. -/
def chunks64 (l : List Nat) : List (List Nat) := chunks64Aux l.length l

/-- MD5 padding: `0x80`, zeros to 56 mod 64, then the 64-bit little-endian
bit length. -/
def md5Pad (msg : List Nat) : List Nat :=
  msg ++ 0x80 :: List.replicate ((119 - msg.length % 64) % 64) 0
      ++ leBytes 8 ((8 * msg.length) % 2 ^ 64)

/-- The 16-byte MD5 digest of a byte string. -/
def md5Bytes (msg : List Nat) : List Nat :=
  let final := (chunks64 (md5Pad msg)).foldl md5Block
    (0x67452301, 0xefcdab89, 0x98badcfe, 0x10325476)
  leBytes 4 final.1 ++ leBytes 4 final.2.1 ++ leBytes 4 final.2.2.1
    ++ leBytes 4 final.2.2.2

/-- Lowercase hex digit. -/
def hexChar (n : Nat) : Char :=
  if n < 10 then Char.ofNat (48 + n) else Char.ofNat (87 + n)

/-- `hashlib.md5(msg).hexdigest()`. -/
def md5Hex (msg : List Nat) : String :=
  ⟨(md5Bytes msg).flatMap fun b => [hexChar (b / 16), hexChar (b % 16)]⟩

/-- UTF-8 encoding of one code point (Python `str.encode()`). -/
def utf8Char (c : Char) : List Nat :=
  let n := c.toNat
  if n < 0x80 then [n]
  else if n < 0x800 then [0xC0 + n / 64, 0x80 + n % 64]
  else if n < 0x10000 then
    [0xE0 + n / 4096, 0x80 + n / 64 % 64, 0x80 + n % 64]
  else
    [0xF0 + n / 262144, 0x80 + n / 4096 % 64, 0x80 + n / 64 % 64, 0x80 + n % 64]

/-- UTF-8 encoding of a string. -/
def utf8Bytes (s : String) : List Nat := s.data.flatMap utf8Char

/-! ## Team classifier (`is_club_team`) -/

/-- `NATIONAL_TEAM_INDICATORS` from the source. -/
def NATIONAL_TEAM_INDICATORS : List String :=
  ["national team", "national squad", "country team"]

/-- `CLUB_INDICATORS` from the source. -/
def CLUB_INDICATORS : List String :=
  ["FC", "CF", "AC", "AS", "SC", "United", "City", "Real", "Bayern",
   "Barcelona", "Madrid", "Chelsea", "Arsenal", "Liverpool", "Manchester",
   "Club", "Athletic", "Sporting", "Olympique", "Paris", "Milan", "Inter"]

/-- The bare-country alternation of `country_only_patterns` (the regex is
anchored on both sides, so it is an exact-match list). -/
def COUNTRY_NAMES : List String :=
  ["england", "spain", "france", "germany", "italy", "portugal", "netherlands",
   "belgium", "poland", "greece", "turkey", "russia", "ukraine", "sweden",
   "norway", "denmark", "croatia", "serbia", "romania", "bulgaria", "hungary",
   "czech", "slovakia", "switzerland", "austria", "scotland", "wales",
   "ireland", "finland", "iceland"]

/-- `is_club_team` from the source: decides whether a team name denotes a club
rather than a national team. -/
def is_club_team (team_name : String) : Bool :=
  if (pyStrip team_name).length < 3 then false
  else
    let team_lower := pyStrip (pyLower team_name)
    if NATIONAL_TEAM_INDICATORS.any (fun ind => strContainsSub team_lower ind) then
      false
    else if COUNTRY_NAMES.contains team_lower
        && !(CLUB_INDICATORS.any fun ind => strContainsSub team_lower (pyLower ind)) then
      false
    else
      true

/-! ## Phase normalization (`normalize_phase`) -/

/-- The `phase_mapping` dictionary, in insertion order (Python dicts preserve
it, and the loop takes the first key contained in the input). -/
def phase_mapping : List (String × String) :=
  [("league phase", "LEAGUE_PHASE"),
   ("league", "LEAGUE_PHASE"),
   ("group stage", "LEAGUE_PHASE"),
   ("group", "LEAGUE_PHASE"),
   ("knockout phase", "KNOCKOUT_PHASE"),
   ("knockout", "KNOCKOUT_PHASE"),
   ("ko phase", "KNOCKOUT_PHASE"),
   ("round of 16", "ROUND_OF_16"),
   ("ro16", "ROUND_OF_16"),
   ("1/8 final", "ROUND_OF_16"),
   ("round of 8", "QUARTER_FINAL"),
   ("ro8", "QUARTER_FINAL"),
   ("1/4 final", "QUARTER_FINAL"),
   ("quarter", "QUARTER_FINAL"),
   ("quarter-final", "QUARTER_FINAL"),
   ("semi", "SEMI_FINAL"),
   ("semi-final", "SEMI_FINAL"),
   ("semi final", "SEMI_FINAL"),
   ("final", "FINAL"),
   ("play-off", "PLAY_OFF"),
   ("playoff", "PLAY_OFF"),
   ("qualifying", "QUALIFYING"),
   ("preliminary", "PRELIMINARY")]

/-- Is `c` in the character class `[A-Z0-9_]`? -/
def isSlugChar (c : Char) : Bool :=
  ('A' ≤ c && c ≤ 'Z') || ('0' ≤ c && c ≤ '9') || c = '_'

/-- `re.sub(r'[^A-Z0-9_]', '_', s.upper())[:w]`. -/
def phaseSlug (w : Nat) (s : String) : String :=
  ⟨((pyUpper s).data.map fun c => if isSlugChar c then c else '_').take w⟩

/-- `normalize_phase` from the source. -/
def normalize_phase (phase_text : String) : String :=
  if phase_text = "" then "UNKNOWN"
  else
    let phase_lower := pyStrip (pyLower phase_text)
    match phase_mapping.find? (fun kv => strContainsSub phase_lower kv.1) with
    | some kv => kv.2
    | none => phaseSlug 30 phase_text

/-! ## Match identity (`generate_match_id`) -/

/-- The pipe-joined string hashed by `generate_match_id`. -/
def matchString (competition season phase home_team away_team match_date : String) :
    String :=
  competition ++ "|" ++ season ++ "|" ++ phase ++ "|" ++ home_team ++ "|"
    ++ away_team ++ "|" ++ match_date

/-- The hash segment of a match id: the first 8 hex digits of the md5 of the
pipe-joined fields, uppercased. -/
def idHash (competition season phase home_team away_team match_date : String) :
    String :=
  let digest :=
    md5Hex (utf8Bytes
      (matchString competition season phase home_team away_team match_date))
  ⟨(digest.data.take 8).map Char.toUpper⟩

/-- `generate_match_id` from the source:
`{competition}_{season with / replaced by _}_{phase slug}_{8 uppercase hex of md5}`. -/
def generate_match_id (competition season phase home_team away_team match_date :
    String) : String :=
  let match_hash := idHash competition season phase home_team away_team match_date
  let phase_clean := phaseSlug 20 phase
  let season_clean := pyReplace season "/" "_"
  competition ++ "_" ++ season_clean ++ "_" ++ phase_clean ++ "_" ++ match_hash

/-! ## Hand-compiled regular-expression scanners

Each scanner implements `re.search` (leftmost match) for one concrete pattern
of the source, including the backtracking order of the greedy `\d{1,2}`
groups.  For these patterns a failed two-digit alternative can never be
rescued by the one-digit alternative at the same start position (the second
digit can not match the separator that must follow), so the scanners try the
two-digit reading first and otherwise fall back exactly as the regex engine
does. -/

/-- Separator class `[./]`. -/
def dmySepOk (c : Char) : Bool := c = '.' || c = '/'

/-- Greedy `\d{1,2}` at the front: the matched digits and the rest. -/
def grabNum12 : List Char → Option (List Char × List Char)
  | c1 :: c2 :: rest =>
    if c1.isDigit then
      if c2.isDigit then some ([c1, c2], rest) else some ([c1], c2 :: rest)
    else none
  | [c1] => if c1.isDigit then some ([c1], []) else none
  | [] => none

/-- Exactly `\d{4}` at the front. -/
def grab4Digits : List Char → Option (List Char × List Char)
  | c1 :: c2 :: c3 :: c4 :: rest =>
    if c1.isDigit && c2.isDigit && c3.isDigit && c4.isDigit
    then some ([c1, c2, c3, c4], rest) else none
  | _ => none

/-- Anchored attempt of `(\d{1,2})[./](\d{1,2})[./](\d{4})`. -/
def dmyAt (cs : List Char) : Option (String × String × String) :=
  match grabNum12 cs with
  | some (ds, sep1 :: r1) =>
    if dmySepOk sep1 then
      match grabNum12 r1 with
      | some (ms, sep2 :: r2) =>
        if dmySepOk sep2 then
          match grab4Digits r2 with
          | some (ys, _) => some (⟨ds⟩, ⟨ms⟩, ⟨ys⟩)
          | none => none
        else none
      | _ => none
    else none
  | _ => none

/-- `re.search(r'(\d{1,2})[./](\d{1,2})[./](\d{4})', s)`. -/
def searchDMYAux : List Char → Option (String × String × String)
  | [] => none
  | c :: rest =>
    match dmyAt (c :: rest) with
    | some r => some r
    | none => searchDMYAux rest

/-- `re.search` for the day-month-year pattern, on a string. -/
def searchDMY (s : String) : Option (String × String × String) :=
  searchDMYAux s.data

/-- Anchored attempt of `(\d{1,2})\.(\d{1,2})(?:\.(\d{4}))?`. -/
def dmOptYAt (cs : List Char) : Option (String × String × Option String) :=
  match grabNum12 cs with
  | some (ds, '.' :: r1) =>
    match grabNum12 r1 with
    | some (ms, r2) =>
      match r2 with
      | '.' :: r3 =>
        match grab4Digits r3 with
        | some (ys, _) => some (⟨ds⟩, ⟨ms⟩, some ⟨ys⟩)
        | none => some (⟨ds⟩, ⟨ms⟩, none)
      | _ => some (⟨ds⟩, ⟨ms⟩, none)
    | none => none
  | _ => none

/-- `re.search(r'(\d{1,2})\.(\d{1,2})(?:\.(\d{4}))?', s)`. -/
def searchDMOptYAux : List Char → Option (String × String × Option String)
  | [] => none
  | c :: rest =>
    match dmOptYAt (c :: rest) with
    | some r => some r
    | none => searchDMOptYAux rest

/-- `re.search` for the optional-year day-month pattern, on a string. -/
def searchDMOptY (s : String) : Option (String × String × Option String) :=
  searchDMOptYAux s.data

/-- Month group of `(\d{1,2})\.(\d{1,2})(?!\.)`: two digits if the negative
lookahead then holds, else one digit if the lookahead holds after it. -/
def dmMonthLookahead : List Char → Option String
  | m1 :: m2 :: rest =>
    if m1.isDigit then
      if m2.isDigit then
        match rest with
        | '.' :: _ =>
          -- lookahead fails after two digits; retry with one digit
          if m2 = '.' then none else some ⟨[m1]⟩
        | _ => some ⟨[m1, m2]⟩
      else if m2 = '.' then none
      else some ⟨[m1]⟩
    else none
  | [m1] => if m1.isDigit then some ⟨[m1]⟩ else none
  | [] => none

/-- Anchored attempt of `(\d{1,2})\.(\d{1,2})(?!\.)`. -/
def dmAt (cs : List Char) : Option (String × String) :=
  match grabNum12 cs with
  | some (ds, '.' :: r1) =>
    match dmMonthLookahead r1 with
    | some ms => some (⟨ds⟩, ms)
    | none => none
  | _ => none

/-- `re.search(r'(\d{1,2})\.(\d{1,2})(?!\.)', s)` over a character list. -/
def searchDMAux : List Char → Option (String × String)
  | [] => none
  | c :: rest =>
    match dmAt (c :: rest) with
    | some r => some r
    | none => searchDMAux rest

/-- `re.search` for the no-year day-month pattern, on a string. -/
def searchDM (s : String) : Option (String × String) :=
  searchDMAux s.data

/-- `re.match(r'^\d{1,2}\.\d{1,2}', part)` (anchored, used to skip date-shaped
split parts). -/
def matchStartDM (s : String) : Bool :=
  match s.data with
  | c1 :: c2 :: c3 :: c4 :: _ =>
    if c1.isDigit && c2.isDigit then c3 = '.' && c4.isDigit
    else c1.isDigit && c2 = '.' && c3.isDigit
  | [c1, c2, c3] =>
    if c1.isDigit && c2.isDigit then false
    else c1.isDigit && c2 = '.' && c3.isDigit
  | _ => false

/-- Anchored attempt of `(\d+)\s*[sep]\s*(\d+)` for a separator set. -/
def numSepNumAt (seps : List Char) (cs : List Char) : Option (Nat × Nat) :=
  let d1 := cs.takeWhile Char.isDigit
  if d1.isEmpty then none
  else
    let r2 := (cs.dropWhile Char.isDigit).dropWhile pyWs
    match r2 with
    | sep :: r3 =>
      if seps.contains sep then
        let r4 := r3.dropWhile pyWs
        let d2 := r4.takeWhile Char.isDigit
        if d2.isEmpty then none else some (digitsToNat d1, digitsToNat d2)
      else none
    | [] => none

/-- `re.search(r'(\d+)\s*[seps]\s*(\d+)', s)` over a character list. -/
def searchNumSepNumAux (seps : List Char) : List Char → Option (Nat × Nat)
  | [] => none
  | c :: rest =>
    match numSepNumAt seps (c :: rest) with
    | some r => some r
    | none => searchNumSepNumAux seps rest

/-- `re.search` for a two-integer score pattern, on a string. -/
def searchNumSepNum (seps : List Char) (s : String) : Option (Nat × Nat) :=
  searchNumSepNumAux seps s.data

/-! ## Date normalizer (`parse_date`) -/

/-- Directives of the `datetime.strptime` formats used by `parse_date`.
A format-string space compiles to `\s+`; `%y` is the two-digit pivot year. -/
inductive FmtDir where
  | dd
  | mm
  | y4
  | y2
  | monthFull
  | monthAbbr
  | ws
  | lit (c : Char)

/-- English month names recognized by `%B` (matched case-insensitively). -/
def monthNamesFull : List (String × Nat) :=
  [("january", 1), ("february", 2), ("march", 3), ("april", 4), ("may", 5),
   ("june", 6), ("july", 7), ("august", 8), ("september", 9), ("october", 10),
   ("november", 11), ("december", 12)]

/-- English month abbreviations recognized by `%b`. -/
def monthNamesAbbr : List (String × Nat) :=
  [("jan", 1), ("feb", 2), ("mar", 3), ("apr", 4), ("may", 5), ("jun", 6),
   ("jul", 7), ("aug", 8), ("sep", 9), ("oct", 10), ("nov", 11), ("dec", 12)]

/-- Match one month name case-insensitively at the front. -/
def matchMonthName (names : List (String × Nat)) (cs : List Char) :
    Option (Nat × List Char) :=
  names.findSome? fun nv =>
    if (cs.take nv.1.length).map Char.toLower = nv.1.data
    then some (nv.2, cs.drop nv.1.length) else none

/-- Run one `strptime` format over the whole input, accumulating day, month
and year (defaults 1, 1, 1900). -/
def runFmt : List FmtDir → List Char → Nat → Nat → Nat → Option (Nat × Nat × Nat)
  | [], [], d, m, y => some (d, m, y)
  | [], _ :: _, _, _, _ => none
  | dir :: rest, cs, d, m, y =>
    match dir with
    | .lit c =>
      match cs with
      | c2 :: cs2 => if c2 = c then runFmt rest cs2 d m y else none
      | [] => none
    | .ws =>
      match cs with
      | c2 :: _ => if pyWs c2 then runFmt rest (cs.dropWhile pyWs) d m y else none
      | [] => none
    | .dd =>
      match takeNum2 31 cs with
      | some (v, cs2) => runFmt rest cs2 v m y
      | none => none
    | .mm =>
      match takeNum2 12 cs with
      | some (v, cs2) => runFmt rest cs2 d v y
      | none => none
    | .y4 =>
      match takeDigitsExact 4 cs with
      | some (v, cs2) => runFmt rest cs2 d m v
      | none => none
    | .y2 =>
      match takeDigitsExact 2 cs with
      | some (v, cs2) => runFmt rest cs2 d m (if v ≤ 68 then 2000 + v else 1900 + v)
      | none => none
    | .monthFull =>
      match matchMonthName monthNamesFull cs with
      | some (v, cs2) => runFmt rest cs2 d v y
      | none => none
    | .monthAbbr =>
      match matchMonthName monthNamesAbbr cs with
      | some (v, cs2) => runFmt rest cs2 d v y
      | none => none

/-- The ordered `formats` list of `parse_date`. -/
def pyFormats : List (List FmtDir) :=
  [[.dd, .lit '.', .mm, .lit '.', .y4],
   [.dd, .lit '/', .mm, .lit '/', .y4],
   [.y4, .lit '-', .mm, .lit '-', .dd],
   [.dd, .ws, .monthFull, .ws, .y4],
   [.dd, .ws, .monthAbbr, .ws, .y4],
   [.monthFull, .ws, .dd, .lit ',', .ws, .y4],
   [.monthAbbr, .ws, .dd, .lit ',', .ws, .y4],
   [.dd, .lit '.', .mm, .lit '.', .y2],
   [.dd, .lit '/', .mm, .lit '/', .y2]]

/-- Try the explicit formats in order; a match with an invalid calendar date
raises inside `strptime` and the loop moves on, exactly like `findSome?`. -/
def tryFormats (cs : List Char) : Option PyDate :=
  pyFormats.findSome? fun f =>
    match runFmt f cs 1 1 1900 with
    | some (d, m, y) => mkDate (y : Int) (m : Int) (d : Int)
    | none => none

/-- The year-inference core of `parse_date`'s no-year `DD.MM` branch: current
year, unless the month is numerically greater than the current month (then the
previous year); if the resulting date is still in the future relative to now,
one further year back (re-validating the calendar date, whose failure is the
caught `ValueError`). -/
def inferDMDate (now : PyDate) (day month : Int) : Option PyDate :=
  let year0 : Int := if month > now.month then now.year - 1 else now.year
  match mkDate year0 month day with
  | none => none
  | some dt0 =>
    if dateLt now dt0 then mkDate (year0 - 1) month day
    else some dt0

/-- `parse_date` from the source, with `now` made explicit. -/
def parse_date (now : PyDate) (date_str : String) : Option String :=
  if date_str = "" then none
  else
    let t := pyStrip date_str
    match tryFormats t.data with
    | some dt => some (fmtYMD dt)
    | none =>
      let afterDMY : Option String :=
        match searchDMY t with
        | some (ds, ms, ys) =>
          match mkDate ((digitsToNat ys.data : Nat) : Int)
              ((digitsToNat ms.data : Nat) : Int) ((digitsToNat ds.data : Nat) : Int) with
          | some dt => some (fmtYMD dt)
          | none => none
        | none => none
      match afterDMY with
      | some r => some r
      | none =>
        match searchDM t with
        | some (ds, ms) =>
          (inferDMDate now ((digitsToNat ds.data : Nat) : Int)
            ((digitsToNat ms.data : Nat) : Int)).map fmtYMD
        | none => none

/-- The year-inference of the extractor's inline `DD.MM` date branches
(`extract_matches_from_flashscore_elements`, methods 1 and 4): unlike
`parse_date`, after stepping one more year back for a future date it does not
re-validate the calendar date, and it formats the matched groups with
`zfill(2)`. -/
def inferDMNum (now : PyDate) (dayS monthS : String) : Option String :=
  let day : Int := (digitsToNat dayS.data : Nat)
  let month : Int := (digitsToNat monthS.data : Nat)
  let year0 : Int := if month > now.month then now.year - 1 else now.year
  match mkDate year0 month day with
  | none => none
  | some t =>
    let y := if dateLt now t then year0 - 1 else year0
    some (toString y ++ "-" ++ zfill2 monthS ++ "-" ++ zfill2 dayS)

/-! ## Phase inference from date (`infer_phase_from_date`) -/

/-- The `UCL` branch of `infer_phase_from_date`: the window bounds are
constructed in source order (any failure is the `ValueError` caught by the
blanket `except`, i.e. `none`), then compared in the source's if/elif order. -/
def inferPhaseUCL (sy : Int) (match_dt : PyDate) : Option String :=
  match mkDate (sy) 9 16 with
  | none => none
  | some league_start =>
  match mkDate (sy + 1) 1 28 with
  | none => none
  | some league_end =>
  match mkDate (sy + 1) 2 17 with
  | none => none
  | some ko_start =>
  match mkDate (sy + 1) 2 25 with
  | none => none
  | some ko_end =>
  match mkDate (sy + 1) 3 10 with
  | none => none
  | some ro16_start =>
  match mkDate (sy + 1) 3 18 with
  | none => none
  | some ro16_end =>
  match mkDate (sy + 1) 4 7 with
  | none => none
  | some ro8_start =>
  match mkDate (sy + 1) 4 15 with
  | none => none
  | some ro8_end =>
  match mkDate (sy + 1) 4 28 with
  | none => none
  | some semi_start =>
  match mkDate (sy + 1) 5 6 with
  | none => none
  | some semi_end =>
  match mkDate (sy + 1) 5 30 with
  | none => none
  | some final_date =>
  some (if dateLe league_start match_dt && dateLe match_dt league_end then
      "LEAGUE_PHASE"
    else if dateLe ko_start match_dt && dateLe match_dt ko_end then
      "KNOCKOUT_PHASE"
    else if dateLe ro16_start match_dt && dateLe match_dt ro16_end then
      "ROUND_OF_16"
    else if dateLe ro8_start match_dt && dateLe match_dt ro8_end then
      "QUARTER_FINAL"
    else if dateLe semi_start match_dt && dateLe match_dt semi_end then
      "SEMI_FINAL"
    else if match_dt = final_date then "FINAL"
    else "UNKNOWN")

/-- The `UEL` branch of `infer_phase_from_date`: the window bounds are
constructed in source order (any failure is the `ValueError` caught by the
blanket `except`, i.e. `none`), then compared in the source's if/elif order. -/
def inferPhaseUEL (sy : Int) (match_dt : PyDate) : Option String :=
  match mkDate (sy + 1) 2 19 with
  | none => none
  | some ko_start =>
  match mkDate (sy + 1) 2 25 with
  | none => none
  | some ko_end =>
  match mkDate (sy + 1) 3 12 with
  | none => none
  | some ro16_start =>
  match mkDate (sy + 1) 3 19 with
  | none => none
  | some ro16_end =>
  match mkDate (sy + 1) 4 9 with
  | none => none
  | some ro8_start =>
  match mkDate (sy + 1) 4 16 with
  | none => none
  | some ro8_end =>
  match mkDate (sy + 1) 4 30 with
  | none => none
  | some semi_start =>
  match mkDate (sy + 1) 5 7 with
  | none => none
  | some semi_end =>
  match mkDate (sy + 1) 5 20 with
  | none => none
  | some final_date =>
  match mkDate (sy) 9 16 with
  | none => none
  | some league_start =>
  match mkDate (sy + 1) 1 28 with
  | none => none
  | some league_end =>
  some (if dateLe league_start match_dt && dateLe match_dt league_end then
      "LEAGUE_PHASE"
    else if dateLe ko_start match_dt && dateLe match_dt ko_end then
      "KNOCKOUT_PHASE"
    else if dateLe ro16_start match_dt && dateLe match_dt ro16_end then
      "ROUND_OF_16"
    else if dateLe ro8_start match_dt && dateLe match_dt ro8_end then
      "QUARTER_FINAL"
    else if dateLe semi_start match_dt && dateLe match_dt semi_end then
      "SEMI_FINAL"
    else if match_dt = final_date then "FINAL"
    else "UNKNOWN")

/-- The `UECL` branch of `infer_phase_from_date`: the window bounds are
constructed in source order (any failure is the `ValueError` caught by the
blanket `except`, i.e. `none`), then compared in the source's if/elif order. -/
def inferPhaseUECL (sy : Int) (match_dt : PyDate) : Option String :=
  match mkDate (sy + 1) 2 19 with
  | none => none
  | some ko_start =>
  match mkDate (sy + 1) 2 25 with
  | none => none
  | some ko_end =>
  match mkDate (sy + 1) 3 12 with
  | none => none
  | some ro16_start =>
  match mkDate (sy + 1) 3 19 with
  | none => none
  | some ro16_end =>
  match mkDate (sy + 1) 4 9 with
  | none => none
  | some ro8_start =>
  match mkDate (sy + 1) 4 16 with
  | none => none
  | some ro8_end =>
  match mkDate (sy + 1) 4 30 with
  | none => none
  | some semi_start =>
  match mkDate (sy + 1) 5 7 with
  | none => none
  | some semi_end =>
  match mkDate (sy + 1) 5 27 with
  | none => none
  | some final_date =>
  match mkDate (sy) 9 16 with
  | none => none
  | some league_start =>
  match mkDate (sy + 1) 1 28 with
  | none => none
  | some league_end =>
  some (if dateLe league_start match_dt && dateLe match_dt league_end then
      "LEAGUE_PHASE"
    else if dateLe ko_start match_dt && dateLe match_dt ko_end then
      "KNOCKOUT_PHASE"
    else if dateLe ro16_start match_dt && dateLe match_dt ro16_end then
      "ROUND_OF_16"
    else if dateLe ro8_start match_dt && dateLe match_dt ro8_end then
      "QUARTER_FINAL"
    else if dateLe semi_start match_dt && dateLe match_dt semi_end then
      "SEMI_FINAL"
    else if match_dt = final_date then "FINAL"
    else "UNKNOWN")
/-- `infer_phase_from_date` from the source.  Every `datetime(...)` window
construction happens before the comparison chain, so any failure (year out of
`datetime` range, unparsable season or date) yields `UNKNOWN` via the blanket
`except`. -/
def infer_phase_from_date (competition_code match_date season : String) : String :=
  if match_date = "" || match_date = "2024-01-01" then "UNKNOWN"
  else
    let body : Option String :=
      match parseYMD match_date with
      | none => none
      | some match_dt =>
      match pyInt ((pySplitChar season '/').getD 0 "") with
      | none => none
      | some sy =>
      if competition_code = "UCL" then inferPhaseUCL sy match_dt
      else if competition_code = "UEL" then inferPhaseUEL sy match_dt
      else if competition_code = "UECL" then inferPhaseUECL sy match_dt
      else some "UNKNOWN"
    body.getD "UNKNOWN"

/-! ## League-phase date filter (`is_match_in_league_phase`) -/

/-- `params.get(k)` on the scraper-parameters dictionary (modelled as an
association list; `[]` plays the role of both `None` and the empty dict,
which Python treats identically here via truthiness). -/
def pget (params : List (String × String)) (k : String) : Option String :=
  (params.find? (fun kv => kv.1 = k)).map (fun kv => kv.2)

/-- Python truthiness of an optional string. -/
def truthyO : Option String → Bool
  | some s => s ≠ ""
  | none => false

/-- `is_match_in_league_phase` from the source. -/
def is_match_in_league_phase (match_date competition_code : String)
    (params : List (String × String)) : Bool :=
  if match_date = "" || match_date = "2024-01-01" then false
  else
    let iOpt := pget params (competition_code ++ "_LEAGUE_PHASE_INITIAL_DATE")
    let eOpt := pget params (competition_code ++ "_LEAGUE_PHASE_END_DATE")
    if !truthyO iOpt || !truthyO eOpt then true
    else
      match parseYMD match_date, parseYMD (iOpt.getD ""), parseYMD (eOpt.getD "") with
      | some mdt, some idt, some edt => dateLe idt mdt && dateLe mdt edt
      | _, _, _ => false

/-! ## BeautifulSoup fragment model

A parsed markup fragment is a tree whose leaves are the `NavigableString`s;
`find_all` walks the element descendants in document (pre-)order, and
`get_text` concatenates the strings (stripped, empties dropped, joined by a
separator, when `strip=True` is passed, as everywhere in this source). -/

/-- A BeautifulSoup node: a tag element or a bare string. -/
inductive Node where
  | str (s : String)
  | tag (name : String) (classes : List String) (children : List Node)

mutual

/-- All strings of a node, in document order. -/
def nodeTexts : Node → List String
  | .str s => [s]
  | .tag _ _ cs => listTexts cs
/-- All strings of a node list, in document order. -/
def listTexts : List Node → List String
  | [] => []
  | c :: cs => nodeTexts c ++ listTexts cs

end

/-- `get_text(separator=sep, strip=True)`. -/
def getTextSep (n : Node) (sep : String) : String :=
  joinSep sep (((nodeTexts n).map pyStrip).filter (fun s => s ≠ ""))

/-- `get_text(strip=True)` (empty separator). -/
def getTextStrip (n : Node) : String := getTextSep n ""

mutual

/-- All descendants of a node, in document (pre-)order. -/
def nodeDesc : Node → List Node
  | .str _ => []
  | .tag _ _ cs => listDesc cs
/-- All descendants contributed by a child list, in document (pre-)order. -/
def listDesc : List Node → List Node
  | [] => []
  | c :: cs => c :: (nodeDesc c ++ listDesc cs)

end

/-- Does some class token of the element contain (case-insensitively) one of
the literal alternatives of the class regex? -/
def classMatches (pats : List String) (classes : List String) : Bool :=
  classes.any fun cl => pats.any fun p => strContainsCI cl p

/-- `find_all(tags, class_=re.compile(alt1|alt2|..., re.I))`. -/
def findAllC (n : Node) (tags : List String) (pats : List String) : List Node :=
  (nodeDesc n).filter fun d =>
    match d with
    | .tag t cls _ => tags.contains t && classMatches pats cls
    | .str _ => false

/-- `find_all(tags)` with no class filter. -/
def findAllT (n : Node) (tags : List String) : List Node :=
  (nodeDesc n).filter fun d =>
    match d with
    | .tag t _ _ => tags.contains t
    | .str _ => false

/-! ## The element extractor (`extract_matches_from_flashscore_elements`)

The per-element body is split into the field-resolution stages of the source,
in source order.  A fragment is an element together with its optional
structural parent (`find_parent()`); Python's `None`-or-empty-string
truthiness for the team and date variables is modelled by `""` for "unset". -/

/-- One scraped fragment: the match element and its structural parent. -/
structure Fragment where
  el : Node
  parent : Option Node

/-- An output record (the `matches.append({...})` dictionary). -/
structure MatchRecord where
  MATCH_ID : String
  COMPETITION : String
  SEASON : String
  PHASE : String
  MATCH_DATE : String
  HOME_TEAM : String
  AWAY_TEAM : String
  HOME_GOALS : Nat
  AWAY_GOALS : Nat
deriving DecidableEq, Repr

/-- Team-candidate filter of the pipe-separated text methods: not a digit
string, not date-shaped, longer than 2 characters. -/
def teamCandOk (part : String) : Bool :=
  !pyIsDigit part && !matchStartDM part && part.length > 2

/-- Collect up to two team candidates from the split parts (method 2 of the
team extraction; no dedup in this first pass). -/
def collectCands : List String → List String → List String
  | [], acc => acc
  | p :: ps, acc =>
    let acc2 := if teamCandOk p then acc ++ [p] else acc
    if acc2.length ≥ 2 then acc2 else collectCands ps acc2

/-- Collect up to two team candidates, skipping parts already taken (the
retry pass run when both teams came out identical). -/
def collectCandsDedup : List String → List String → List String
  | [], acc => acc
  | p :: ps, acc =>
    let acc2 := if teamCandOk p && !acc.contains p then acc ++ [p] else acc
    if acc2.length ≥ 2 then acc2 else collectCandsDedup ps acc2

/-- Collect up to two elements with distinct substantial text (method 3 of
the team extraction): text nonempty, longer than 3, not a digit string,
deduplicated by text content. -/
def collectTextEls : List Node → List String → List Node → List Node
  | [], _, acc => acc
  | e :: es, seen, acc =>
    let t := getTextStrip e
    if t ≠ "" && t.length > 3 && !pyIsDigit t then
      let seen2 := if !seen.contains t then t :: seen else seen
      let acc2 := if !seen.contains t then acc ++ [e] else acc
      if acc2.length ≥ 2 then acc2 else collectTextEls es seen2 acc2
    else collectTextEls es seen acc

/-- The split of the fragment's flattened text on the pipe character, each
part stripped. -/
def pipeParts (full_text : String) : List String :=
  (pySplitChar full_text '|').map pyStrip

/-- The final team checks of the extractor: both cleaned names at least two
characters long and distinct; `none` models the `continue`s. -/
def teamsFinalCheck (p : String × String) : Option (String × String) :=
  if p.1.length < 2 || p.2.length < 2 then none
  else if p.1 = p.2 then none
  else some p

/-- Methods 1–3 of the team extraction, the cleaning step and the
identical-team retry; `none` models the no-teams `continue`.  The final
length/distinctness checks are `teamsFinalCheck`. -/
def resolveTeamsRaw (el : Node) (full_text : String) : Option (String × String) :=
  -- Method 1: participant-classed sub-elements
  let participants := findAllC el ["span", "div", "a"] ["event__participant", "participant"]
  let m1 : String × String :=
    match participants with
    | p0 :: p1 :: rest =>
      let h := getTextStrip p0
      let a := getTextStrip p1
      if h = a then
        match rest with
        | p2 :: _ => (h, getTextStrip p2)
        | [] => (h, a)
      else (h, a)
    | _ => ("", "")
  -- Method 2: pipe-separated text
  let parts := pipeParts full_text
  let m2 : String × String :=
    if m1.1 = "" || m1.2 = "" then
      let cands := collectCands parts []
      if cands.length ≥ 2 then
        let c0 := cands.getD 0 ""
        let c1 := cands.getD 1 ""
        let home2 := if m1.1 = "" then c0 else m1.1
        let away2 :=
          if m1.2 = "" then
            if c1 ≠ home2 then c1
            else if cands.length > 2 && cands.getD 2 "" ≠ home2 then cands.getD 2 ""
            else c1
          else m1.2
        (home2, away2)
      else m1
    else m1
  -- Method 3: any sub-element with substantial text
  let m3 : String × String :=
    if m2.1 = "" || m2.2 = "" then
      let all_els := findAllT el ["span", "div", "a"]
      let text_els := collectTextEls all_els [] []
      if text_els.length ≥ 2 then
        let ht := getTextStrip (text_els.getD 0 (.str ""))
        let at2 := getTextStrip (text_els.getD 1 (.str ""))
        let home3 := if m2.1 = "" then ht else m2.1
        let away3 :=
          if m2.2 = "" && at2 ≠ home3 then at2
          else if m2.2 = "" then
            if text_els.length ≥ 3 then getTextStrip (text_els.getD 2 (.str ""))
            else m2.2
          else m2.2
        (home3, away3)
      else m2
    else m2
  if m3.1 = "" || m3.2 = "" then none
  else
    -- cleaning: strip a leading ordinal, collapse whitespace
    let home4 := squeezeWs (pyStrip (stripLeadNum m3.1))
    let away4 := squeezeWs (pyStrip (stripLeadNum m3.2))
    -- identical-team retry from the pipe-separated text (with dedup)
    let p5 : String × String :=
      if home4 = away4 && home4 ≠ "" then
        let cands := collectCandsDedup parts []
        if cands.length ≥ 2 then (cands.getD 0 "", cands.getD 1 "")
        else (home4, away4)
      else (home4, away4)
    some p5

/-- The team extraction: methods 1–3 followed by the final checks. -/
def resolveTeams (el : Node) (full_text : String) : Option (String × String) :=
  match resolveTeamsRaw el full_text with
  | none => none
  | some p => teamsFinalCheck p

/-- First score found in the score-classed sub-elements (method 4). -/
def firstScoreEl : List Node → Option (Nat × Nat)
  | [] => none
  | e :: es =>
    match searchNumSepNum [':', '|'] (getTextStrip e) with
    | some r => some r
    | none => firstScoreEl es

/-- First pair of adjacent all-digit parts (method 2 of the score
extraction). -/
def findAdjDigits : List String → Option (Nat × Nat)
  | p1 :: p2 :: ps =>
    if pyIsDigit p1 && pyIsDigit p2
    then some (digitsToNat p1.data, digitsToNat p2.data)
    else findAdjDigits (p2 :: ps)
  | _ => none

/-- Methods 1–4 of the score extraction; `none` models the no-score
`continue`. -/
def resolveScore (el : Node) (full_text : String) : Option (Nat × Nat) :=
  match searchNumSepNum [':'] full_text with
  | some r => some r
  | none =>
    match findAdjDigits (pipeParts full_text) with
    | some r => some r
    | none =>
      match searchNumSepNum ['|'] full_text with
      | some r => some r
      | none =>
        firstScoreEl (findAllC el ["span", "div"] ["event__score", "event__result", "score"])

/-- Method 1 of the date extraction: scan the split parts for a (possibly
year-less) date token; an invalid inferred calendar date moves on to the next
part. -/
def dateFromParts (now : PyDate) : List String → Option String
  | [] => none
  | p :: ps =>
    match searchDMOptY p with
    | none => dateFromParts now ps
    | some (ds, ms, some ys) => some (ys ++ "-" ++ zfill2 ms ++ "-" ++ zfill2 ds)
    | some (ds, ms, none) =>
      match inferDMNum now ds ms with
      | some d => some d
      | none => dateFromParts now ps

/-- Method 2 of the date extraction: date/time-classed sub-elements of the
element, else of its parent, delegated to `parse_date`. -/
def dateFromEls (now : PyDate) (el : Node) (parent : Option Node) : Option String :=
  let date_els := findAllC el ["span", "div"] ["event__time", "event__date", "time", "date"]
  let date_els :=
    match parent with
    | some par => if date_els.isEmpty then
        findAllC par ["span", "div"] ["event__time", "event__date", "time", "date"]
      else date_els
    | none => date_els
  match date_els with
  | e :: _ => parse_date now (getTextStrip e)
  | [] => none

/-- Methods 1–4 of the date extraction followed by the carried-forward /
current-date fallback.  Returns the resolved `match_date` and the updated
carried `current_date` (updated only by a successful extraction, not by the
fallback). -/
def resolveDate (now : PyDate) (el : Node) (parent : Option Node)
    (full_text : String) (current_date : String) : String × String :=
  match dateFromParts now (pipeParts full_text) with
  | some d => (d, d)
  | none =>
    match dateFromEls now el parent with
    | some d => (d, d)
    | none =>
      match searchDMY full_text with
      | some (ds, ms, ys) =>
        let d := ys ++ "-" ++ zfill2 ms ++ "-" ++ zfill2 ds
        (d, d)
      | none =>
        match searchDM full_text with
        | some (ds, ms) =>
          match inferDMNum now ds ms with
          | some d => (d, d)
          | none =>
            if current_date ≠ "" then (current_date, current_date)
            else (fmtYMD now, current_date)
        | none =>
          if current_date ≠ "" then (current_date, current_date)
          else (fmtYMD now, current_date)

/-- Phase extraction from round/stage-classed sub-elements of the element or
its parent; returns the phase and the updated carried `current_phase`. -/
def resolvePhaseEls (el : Node) (parent : Option Node) (current_phase : String) :
    String × String :=
  let pes := findAllC el ["span", "div"] ["event__stage", "event__round", "round", "stage", "phase"]
  let pes :=
    match parent with
    | some par => if pes.isEmpty then
        findAllC par ["span", "div"] ["event__stage", "event__round", "round", "stage", "phase"]
      else pes
    | none => pes
  match pes with
  | e :: _ =>
    let t := getTextStrip e
    if t ≠ "" then
      let ph := normalize_phase t
      (ph, ph)
    else (current_phase, current_phase)
  | [] => (current_phase, current_phase)

/-- Season resolution: the configured season if present and truthy, else
derived from the resolved date (July starts a new season), else from `now`;
an index or int error inside the derivation falls back to the `now`-based
season. -/
def resolveSeason (now : PyDate) (params : List (String × String))
    (match_date : String) : String :=
  let nowSeason := toString (now.year - 1) ++ "/" ++ toString now.year
  if !params.isEmpty && truthyO (pget params "SEASON") then
    (pget params "SEASON").getD ""
  else if match_date ≠ "" && match_date ≠ "2024-01-01" then
    let p := pySplitChar match_date '-' 
    let derived : Option String :=
      match (p.get? 0).bind pyInt, (p.get? 1).bind pyInt with
      | some y, some m =>
        some (if m ≥ 7 then toString y ++ "/" ++ toString (y + 1)
              else toString (y - 1) ++ "/" ++ toString y)
      | _, _ => none
    derived.getD nowSeason
  else nowSeason

/-- Phase inference from the resolved date when the phase is still UNKNOWN;
returns the phase and the updated carried `current_phase`. -/
def applyPhaseInference (competition_code match_date season phase current_phase :
    String) : String × String :=
  if phase = "UNKNOWN" && match_date ≠ "" && match_date ≠ "2024-01-01" then
    let ip := infer_phase_from_date competition_code match_date season
    if ip ≠ "UNKNOWN" then (ip, ip) else (phase, current_phase)
  else (phase, current_phase)

/-- The mutable loop state of the extractor (`records` is the source's
`matches` accumulator; `matches` is a reserved token in Lean). -/
structure ExtractState where
  records : List MatchRecord
  current_date : String
  current_phase : String

/-- One iteration of the extraction loop over a fragment: field resolution in
source order, club filtering, date-validity and date-range filtering, id
assignment and append.  Returns the new state and whether the `limit` break
fires. -/
def processElement (now : PyDate) (competition_code : String)
    (params : List (String × String)) (limit : Option Nat)
    (st : ExtractState) (frag : Fragment) : ExtractState × Bool :=
  let full_text := getTextSep frag.el " | "
  match resolveTeams frag.el full_text with
  | none => (st, false)
  | some teams =>
    match resolveScore frag.el full_text with
    | none => (st, false)
    | some goals =>
      let home_team := teams.1
      let away_team := teams.2
      let home_goals := goals.1
      let away_goals := goals.2
      let rd := resolveDate now frag.el frag.parent full_text st.current_date
      let match_date := rd.1
      let cd2 := rd.2
      let pe := resolvePhaseEls frag.el frag.parent st.current_phase
      let phase0 := pe.1
      let cp2 := pe.2
      let season := resolveSeason now params match_date
      let pi2 := applyPhaseInference competition_code match_date season phase0 cp2
      let phase := pi2.1
      let cp3 := pi2.2
      let st2 : ExtractState :=
        { st with current_date := cd2, current_phase := cp3 }
      if is_club_team home_team && is_club_team away_team then
        if match_date = "" || match_date = "2024-01-01" then (st2, false)
        else if !params.isEmpty
            && !is_match_in_league_phase match_date competition_code params then
          (st2, false)
        else
          let rec_ : MatchRecord :=
            { MATCH_ID := generate_match_id competition_code season phase
                home_team away_team match_date,
              COMPETITION := competition_code,
              SEASON := season,
              PHASE := phase,
              MATCH_DATE := match_date,
              HOME_TEAM := home_team,
              AWAY_TEAM := away_team,
              HOME_GOALS := home_goals,
              AWAY_GOALS := away_goals }
          let st3 := { st2 with records := st2.records ++ [rec_] }
          let brk :=
            match limit with
            | some l => l ≠ 0 && st3.records.length ≥ l
            | none => false
          (st3, brk)
      else (st2, false)

/-- The extraction loop over the fragment list (document order), honouring
the `limit` break. -/
def extractLoop (now : PyDate) (competition_code : String)
    (params : List (String × String)) (limit : Option Nat) :
    List Fragment → ExtractState → ExtractState
  | [], st => st
  | f :: fs, st =>
    let pr := processElement now competition_code params limit st f
    if pr.2 then pr.1 else extractLoop now competition_code params limit fs pr.1

/-- `extract_matches_from_flashscore_elements` from the source (the unused
`soup` parameter and the print-only counters are omitted). -/
def extract_matches_from_flashscore_elements (now : PyDate)
    (elements : List Fragment) (competition_code : String) (limit : Option Nat)
    (params : List (String × String)) : List MatchRecord :=
  (extractLoop now competition_code params limit elements
    ⟨[], "", "UNKNOWN"⟩).records

/-! ## Alternative extraction (`extract_matches_from_html_structure`)

The fallback path scans the whole page text with
`([A-Za-z\s]+?)\s+(\d+)\s*:\s*(\d+)\s+([A-Za-z\s]+)` (lazy first group,
`finditer`, non-overlapping successive matches). -/

/-- The character class `[A-Za-z\s]`. -/
def alnumSp (c : Char) : Bool :=
  ('A' ≤ c && c ≤ 'Z') || ('a' ≤ c && c ≤ 'z') || pyWs c

/-- The pattern tail after the lazy first group:
`\s+(\d+)\s*:\s*(\d+)\s+([A-Za-z\s]+)`.  Returns the two scores, the fourth
group and the remainder after the match.  When the greedy final `\s+` leaves
no class character for the fourth group, the regex engine gives one
whitespace character back to it. -/
def scoreCtxRest (cs : List Char) : Option (Nat × Nat × String × List Char) :=
  let ws1 := cs.takeWhile pyWs
  if ws1.isEmpty then none
  else
    let r1 := cs.dropWhile pyWs
    let d1 := r1.takeWhile Char.isDigit
    if d1.isEmpty then none
    else
      let r2 := (r1.dropWhile Char.isDigit).dropWhile pyWs
      match r2 with
      | ':' :: r3 =>
        let r4 := r3.dropWhile pyWs
        let d2 := r4.takeWhile Char.isDigit
        if d2.isEmpty then none
        else
          let r5 := r4.dropWhile Char.isDigit
          let ws2 := r5.takeWhile pyWs
          if ws2.isEmpty then none
          else
            let r6 := r5.dropWhile pyWs
            let g4 := r6.takeWhile alnumSp
            if !g4.isEmpty then
              some (digitsToNat d1, digitsToNat d2, ⟨g4⟩, r6.drop g4.length)
            else if ws2.length ≥ 2 then
              some (digitsToNat d1, digitsToNat d2, ⟨[ws2.getLastD 'x']⟩, r6)
            else none
      | _ => none

/-- Try a match whose lazy first group starts at the current position,
extending it one class character at a time. -/
def scoreCtxG1 (acc : List Char) :
    List Char → Option (String × Nat × Nat × String × List Char)
  | [] => none
  | c :: rest =>
    if alnumSp c then
      let acc2 := acc ++ [c]
      match scoreCtxRest rest with
      | some (hg, ag, g4, after) => some (⟨acc2⟩, hg, ag, g4, after)
      | none => scoreCtxG1 acc2 rest
    else none

/-- `finditer` for the score-context pattern (fuelled by the text length). -/
def finditerScore : Nat → List Char → List (String × Nat × Nat × String)
  | 0, _ => []
  | _ + 1, [] => []
  | fuel + 1, c :: rest =>
    match scoreCtxG1 [] (c :: rest) with
    | some (g1, hg, ag, g4, after) => (g1, hg, ag, g4) :: finditerScore fuel after
    | none => finditerScore fuel rest

/-- `extract_matches_from_html_structure` from the source: every match of the
score-context pattern whose two (stripped) team texts are longer than 2 and
classify as clubs becomes a record dated with the current processing date. -/
def extract_matches_from_html_structure (now : PyDate) (soup : Node)
    (competition_code : String) : List MatchRecord :=
  let all_text := joinSep "" (nodeTexts soup)
  (finditerScore all_text.data.length all_text.data).foldl
    (fun acc m =>
      let home_team := pyStrip m.1
      let home_goals := m.2.1
      let away_goals := m.2.2.1
      let away_team := pyStrip m.2.2.2
      if home_team.length > 2 && away_team.length > 2
          && is_club_team home_team && is_club_team away_team then
        let match_date := fmtYMD now
        let season := toString (now.year - 1) ++ "/" ++ toString now.year
        let phase := infer_phase_from_date competition_code match_date season
        acc ++ [{ MATCH_ID := generate_match_id competition_code season phase
                    home_team away_team match_date,
                  COMPETITION := competition_code,
                  SEASON := season,
                  PHASE := phase,
                  MATCH_DATE := match_date,
                  HOME_TEAM := home_team,
                  AWAY_TEAM := away_team,
                  HOME_GOALS := home_goals,
                  AWAY_GOALS := away_goals }]
      else acc)
    []

/-! ## The per-competition pipeline -/

/-- The post-scrape core of `scrape_flashscore_competition`: the main
extractor over the located fragments, then the broader HTML parsing if it
produced nothing; unknown competition codes return `[]` at the top. -/
def scrape_core (now : PyDate) (competition_code : String) (limit : Option Nat)
    (params : List (String × String)) (frags : List Fragment) (soup : Node) :
    List MatchRecord :=
  if ["UCL", "UEL", "UECL"].contains competition_code then
    let ms := extract_matches_from_flashscore_elements now frags
      competition_code limit params
    if ms.isEmpty then extract_matches_from_html_structure now soup competition_code
    else ms
  else []

/-- Lexicographic `<` on character lists (Python string comparison). -/
def charsLt : List Char → List Char → Bool
  | [], [] => false
  | [], _ :: _ => true
  | _ :: _, [] => false
  | a :: as2, b :: bs => if a < b then true else if b < a then false else charsLt as2 bs

/-- Descending-by-date priority: `x` may precede `y` iff `x`'s date is not
smaller.  With a stable sort this is exactly Python's
`sort(key=MATCH_DATE, reverse=True)`. -/
def dateGeKey (x y : MatchRecord) : Bool :=
  !charsLt x.MATCH_DATE.data y.MATCH_DATE.data

/-- Stable insertion (earlier elements are inserted last, before later equal
ones). -/
def insertRecDesc (x : MatchRecord) : List MatchRecord → List MatchRecord
  | [] => [x]
  | y :: ys => if dateGeKey x y then x :: y :: ys else y :: insertRecDesc x ys

/-- Stable sort by match date, descending (ties keep extraction order). -/
def sortRecsDesc : List MatchRecord → List MatchRecord
  | [] => []
  | x :: xs => insertRecDesc x (sortRecsDesc xs)

/-- The per-competition body of `fetch_all_competitions`: scrape, final
club/club filter, sort by date descending.  This is the emitted output for
one competition. -/
def fetch_competition_records (now : PyDate) (competition_code : String)
    (limit : Option Nat) (params : List (String × String))
    (frags : List Fragment) (soup : Node) : List MatchRecord :=
  let ms := scrape_core now competition_code limit params frags soup
  let club_matches := ms.filter fun m =>
    is_club_team m.HOME_TEAM && is_club_team m.AWAY_TEAM
  sortRecsDesc club_matches

/-! ## The Competition Phase Calendar as the specification describes it

These definitions follow the specification's wording (§4.3: "returns the
phase whose inclusive date window contains `date`; exact single-day match
required for FINAL; returns UNKNOWN if no window contains the date", windows
keyed by competition); they are the refinement target that
`infer_phase_from_date` is compared against. -/

/-- The per-competition inclusive phase windows (in the documented order
LEAGUE_PHASE, KNOCKOUT_PHASE, ROUND_OF_16, QUARTER_FINAL, SEMI_FINAL) for the
season starting in `sy`. -/
def phaseWindows (comp : String) (sy : Int) : List (String × PyDate × PyDate) :=
  if comp = "UCL" then
    [("LEAGUE_PHASE", ⟨sy, 9, 16⟩, ⟨sy + 1, 1, 28⟩),
     ("KNOCKOUT_PHASE", ⟨sy + 1, 2, 17⟩, ⟨sy + 1, 2, 25⟩),
     ("ROUND_OF_16", ⟨sy + 1, 3, 10⟩, ⟨sy + 1, 3, 18⟩),
     ("QUARTER_FINAL", ⟨sy + 1, 4, 7⟩, ⟨sy + 1, 4, 15⟩),
     ("SEMI_FINAL", ⟨sy + 1, 4, 28⟩, ⟨sy + 1, 5, 6⟩)]
  else if comp = "UEL" || comp = "UECL" then
    [("LEAGUE_PHASE", ⟨sy, 9, 16⟩, ⟨sy + 1, 1, 28⟩),
     ("KNOCKOUT_PHASE", ⟨sy + 1, 2, 19⟩, ⟨sy + 1, 2, 25⟩),
     ("ROUND_OF_16", ⟨sy + 1, 3, 12⟩, ⟨sy + 1, 3, 19⟩),
     ("QUARTER_FINAL", ⟨sy + 1, 4, 9⟩, ⟨sy + 1, 4, 16⟩),
     ("SEMI_FINAL", ⟨sy + 1, 4, 30⟩, ⟨sy + 1, 5, 7⟩)]
  else []

/-- The single-day FINAL date per competition (they differ pairwise). -/
def finalDay (comp : String) (sy : Int) : Option PyDate :=
  if comp = "UCL" then some ⟨sy + 1, 5, 30⟩
  else if comp = "UEL" then some ⟨sy + 1, 5, 20⟩
  else if comp = "UECL" then some ⟨sy + 1, 5, 27⟩
  else none

/-- The phase of the first window (in documented order) containing the date. -/
def firstWindowPhase (dt : PyDate) (ws : List (String × PyDate × PyDate)) :
    Option String :=
  (ws.find? (fun w => dateLe w.2.1 dt && dateLe dt w.2.2)).map (fun w => w.1)

/-- The phase the specification's calendar assigns: the first containing
window, else FINAL on the exact final date, else UNKNOWN. -/
def windowsVerdict (comp : String) (sy : Int) (dt : PyDate) : String :=
  match firstWindowPhase dt (phaseWindows comp sy) with
  | some ph => ph
  | none =>
    match finalDay comp sy with
    | some fd => if dt = fd then "FINAL" else "UNKNOWN"
    | none => "UNKNOWN"

/-- Uppercase hexadecimal digit class. -/
def isUpperHex (c : Char) : Bool :=
  ('0' ≤ c && c ≤ '9') || ('A' ≤ c && c ≤ 'F')

/-! ## Concrete test inputs -/

/-- A fragment whose flattened text is `Arsenal | Chelsea | 1 | 2`: two club
teams and a score but no date-shaped token anywhere. -/
def fragTeamsScore : Fragment :=
  ⟨.tag "div" ["event__match"]
    [.str "Arsenal", .str "Chelsea", .str "1", .str "2"], none⟩

/-- A fragment whose participant sub-elements are `FOO` and `Foo`: distinct
as exact strings but equal after case normalization. -/
def fragCasePair : Fragment :=
  ⟨.tag "div" []
    [.tag "span" ["event__participant"] [.str "FOO"],
     .tag "span" ["event__participant"] [.str "Foo"],
     .str "1 : 2"], none⟩

/-- A page whose whole text is one score context between two club names. -/
def soupPlain : Node := .tag "html" [] [.str "Arsenal 1 : 1 Chelsea"]

/-! ## Digest and identifier shape lemmas -/

theorem leBytes_length (k : Nat) : ∀ v : Nat, (leBytes k v).length = k := by
  induction k with
  | zero => intro v; rfl
  | succ n ih => intro v; simp [leBytes, ih]

theorem leBytes_lt (k : Nat) : ∀ v : Nat, ∀ x ∈ leBytes k v, x < 256 := by
  induction k with
  | zero => intro v x hx; simp [leBytes] at hx
  | succ n ih =>
    intro v x hx
    simp only [leBytes, List.mem_cons] at hx
    rcases hx with h | h
    · subst h; exact Nat.mod_lt _ (by norm_num)
    · exact ih _ x h

theorem md5Bytes_length (msg : List Nat) : (md5Bytes msg).length = 16 := by
  simp [md5Bytes, leBytes_length]

theorem md5Bytes_lt (msg : List Nat) : ∀ x ∈ md5Bytes msg, x < 256 := by
  intro x hx
  simp only [md5Bytes, List.mem_append] at hx
  rcases hx with ((h | h) | h) | h <;> exact leBytes_lt _ _ x h

theorem flatMapPair_length {α β : Type} (f g : α → β) (l : List α) :
    (l.flatMap fun b => [f b, g b]).length = 2 * l.length := by
  induction l with
  | nil => rfl
  | cons x xs ih => simp [List.flatMap_cons, ih]; omega

theorem md5Hex_data_length (msg : List Nat) : (md5Hex msg).data.length = 32 := by
  show (List.flatMap _ _).length = 32
  rw [flatMapPair_length, md5Bytes_length]

theorem hexChar_upper_ok : ∀ n : Nat, n < 16 → isUpperHex (hexChar n).toUpper = true := by
  decide

theorem md5Hex_chars (msg : List Nat) :
    ∀ c ∈ (md5Hex msg).data, isUpperHex c.toUpper = true := by
  intro c hc
  have hc2 : c ∈ (md5Bytes msg).flatMap fun b => [hexChar (b / 16), hexChar (b % 16)] := hc
  simp only [List.mem_flatMap, List.mem_cons, List.not_mem_nil, or_false] at hc2
  obtain ⟨b, hb, hcb⟩ := hc2
  have hblt := md5Bytes_lt msg b hb
  rcases hcb with h | h <;> subst h
  · exact hexChar_upper_ok _ (by omega)
  · exact hexChar_upper_ok _ (Nat.mod_lt _ (by norm_num))

theorem idHash_data (c s p h a d : String) :
    (idHash c s p h a d).data
      = ((md5Hex (utf8Bytes (matchString c s p h a d))).data.take 8).map Char.toUpper := rfl

theorem idHash_length (c s p h a d : String) : (idHash c s p h a d).length = 8 := by
  show (((md5Hex (utf8Bytes (matchString c s p h a d))).data.take 8).map
    Char.toUpper).length = 8
  rw [List.length_map, List.length_take, md5Hex_data_length]
  decide

theorem idHash_chars (c s p h a d : String) :
    (idHash c s p h a d).data.all isUpperHex = true := by
  rw [idHash_data, List.all_eq_true]
  intro x hx
  simp only [List.mem_map] at hx
  obtain ⟨y, hy, hxy⟩ := hx
  subst hxy
  exact md5Hex_chars _ y (List.mem_of_mem_take hy)

theorem phaseSlug_le (w : Nat) (s : String) : (phaseSlug w s).length ≤ w := by
  show (((pyUpper s).data.map _).take w).length ≤ w
  rw [List.length_take]
  omega

theorem phaseSlug_chars (w : Nat) (s : String) :
    (phaseSlug w s).data.all isSlugChar = true := by
  rw [List.all_eq_true]
  intro x hx
  have hx2 := List.mem_of_mem_take hx
  simp only [List.mem_map] at hx2
  obtain ⟨y, _, hxy⟩ := hx2
  subst hxy
  split
  · rename_i h; exact h
  · decide

/-- C10: the identifier always has the exact composite shape
`{competition}_{season with / replaced by _}_{phase slug}_{hash}`, where the
phase slug is at most 20 characters over `[A-Z0-9_]` and the hash is exactly
8 uppercase hexadecimal characters; in particular the id is never empty. -/
theorem match_id_shape : ∀ competition season phase home_team away_team match_date : String,
    generate_match_id competition season phase home_team away_team match_date
      = competition ++ "_" ++ pyReplace season "/" "_" ++ "_" ++ phaseSlug 20 phase
        ++ "_" ++ idHash competition season phase home_team away_team match_date
    ∧ (phaseSlug 20 phase).length ≤ 20
    ∧ (phaseSlug 20 phase).data.all isSlugChar = true
    ∧ (idHash competition season phase home_team away_team match_date).length = 8
    ∧ (idHash competition season phase home_team away_team match_date).data.all
        isUpperHex = true
    ∧ generate_match_id competition season phase home_team away_team match_date ≠ "" := by
  intro c s p h a d
  refine ⟨rfl, phaseSlug_le 20 p, phaseSlug_chars 20 p, idHash_length c s p h a d,
    idHash_chars c s p h a d, ?_⟩
  intro hEq
  have hlen := congrArg String.length hEq
  simp only [generate_match_id, String.length_append] at hlen
  have h1 : ("_" : String).length = 1 := rfl
  have h0 : ("" : String).length = 0 := rfl
  rw [h1, h0] at hlen
  omega

/-! ## Identifier sensitivity (C5) -/

theorem str_data_inj (x y : String) (h : x.data = y.data) : x = y := by
  cases x; cases y
  exact congrArg String.mk (by simpa using h)

theorem strMid_inj (pre suf x y : String) (hEq : pre ++ x ++ suf = pre ++ y ++ suf) :
    x = y := by
  have hdata := congrArg String.data hEq
  simp only [String.data_append, List.append_assoc] at hdata
  have h1 := List.append_cancel_left hdata
  have h2 := List.append_cancel_right h1
  cases x; cases y
  exact congrArg String.mk (by simpa using h2)

theorem takeWhile_left_of_not_mem (xs rest : List Char) (hx : '|' ∉ xs) :
    ((xs ++ '|' :: rest).takeWhile fun c => c != '|') = xs := by
  induction xs with
  | nil => simp [List.takeWhile]
  | cons c cs ih =>
    simp only [List.mem_cons, not_or] at hx
    have hc : (c != '|') = true := by
      simp only [bne_iff_ne, ne_eq]
      exact fun h2 => hx.1 h2.symm
    simp only [List.cons_append, List.takeWhile_cons, hc, if_true]
    rw [ih hx.2]

/-- C5 (amended): `generate_match_id` is deterministic; changing the
competition argument always changes the id; changing any one of the other
five arguments always changes the hashed input string (as does swapping
distinct pipe-free home and away names), but the id itself can survive such a
change when the truncated 8-hex digest collides. -/
theorem match_id_argument_sensitivity :
    (∀ c s p h a d : String,
      generate_match_id c s p h a d = generate_match_id c s p h a d)
    ∧ (∀ c c2 s p h a d : String, c ≠ c2 →
      generate_match_id c s p h a d ≠ generate_match_id c2 s p h a d)
    ∧ (∀ c s s2 p h a d : String, s ≠ s2 →
      matchString c s p h a d ≠ matchString c s2 p h a d)
    ∧ (∀ c s p p2 h a d : String, p ≠ p2 →
      matchString c s p h a d ≠ matchString c s p2 h a d)
    ∧ (∀ c s p h h2 a d : String, h ≠ h2 →
      matchString c s p h a d ≠ matchString c s p h2 a d)
    ∧ (∀ c s p h a a2 d : String, a ≠ a2 →
      matchString c s p h a d ≠ matchString c s p h a2 d)
    ∧ (∀ c s p h a d d2 : String, d ≠ d2 →
      matchString c s p h a d ≠ matchString c s p h a d2)
    ∧ (∀ c s p h a d : String, h ≠ a → '|' ∉ h.data → '|' ∉ a.data →
      matchString c s p h a d ≠ matchString c s p a h d) := by
  refine ⟨fun c s p h a d => rfl, ?_, ?_, ?_, ?_, ?_, ?_, ?_⟩
  · intro c c2 s p h a d hne hEq
    apply hne
    have hlen := congrArg String.length hEq
    simp only [generate_match_id, String.length_append, idHash_length] at hlen
    have hdata := congrArg String.data hEq
    simp only [generate_match_id, String.data_append, List.append_assoc] at hdata
    have hclen : c.data.length = c2.data.length := by
      have e1 : c.length = c.data.length := rfl
      have e2 : c2.length = c2.data.length := rfl
      omega
    exact str_data_inj c c2 (List.append_inj hdata hclen).1
  · intro c s s2 p h a d hne hEq
    exact hne (strMid_inj (c ++ "|") ("|" ++ p ++ "|" ++ h ++ "|" ++ a ++ "|" ++ d) s s2
      (by simpa only [matchString, String.append_assoc] using hEq))
  · intro c s p p2 h a d hne hEq
    exact hne (strMid_inj (c ++ "|" ++ s ++ "|") ("|" ++ h ++ "|" ++ a ++ "|" ++ d) p p2
      (by simpa only [matchString, String.append_assoc] using hEq))
  · intro c s p h h2 a d hne hEq
    exact hne (strMid_inj (c ++ "|" ++ s ++ "|" ++ p ++ "|") ("|" ++ a ++ "|" ++ d) h h2
      (by simpa only [matchString, String.append_assoc] using hEq))
  · intro c s p h a a2 d hne hEq
    exact hne (strMid_inj (c ++ "|" ++ s ++ "|" ++ p ++ "|" ++ h ++ "|") ("|" ++ d) a a2
      (by simpa only [matchString, String.append_assoc] using hEq))
  · intro c s p h a d d2 hne hEq
    exact hne (strMid_inj (c ++ "|" ++ s ++ "|" ++ p ++ "|" ++ h ++ "|" ++ a ++ "|") "" d d2
      (by simpa only [matchString, String.append_assoc, String.append_empty] using hEq))
  · intro c s p h a d hne hph hpa hEq
    apply hne
    have key : h ++ "|" ++ a = a ++ "|" ++ h :=
      strMid_inj (c ++ "|" ++ s ++ "|" ++ p ++ "|") ("|" ++ d) _ _
        (by simpa only [matchString, String.append_assoc] using hEq)
    have kdata := congrArg String.data key
    simp only [String.data_append, List.append_assoc] at kdata
    simp only [List.singleton_append] at kdata
    have t1 := congrArg (List.takeWhile fun ch => ch != '|') kdata
    rw [takeWhile_left_of_not_mem h.data a.data hph,
        takeWhile_left_of_not_mem a.data h.data hpa] at t1
    exact str_data_inj h a t1

set_option maxRecDepth 20000 in
/-- C5 counterexample: two distinct well-formed dates whose records receive
the same id (an 8-hex truncated md5 collision), refuting "changing any single
one of the six arguments changes the output". -/
theorem match_id_date_collision :
    generate_match_id "UCL" "2024/2025" "LEAGUE_PHASE" "Real Madrid" "PSG" "2005-10-20"
      = generate_match_id "UCL" "2024/2025" "LEAGUE_PHASE" "Real Madrid" "PSG" "2116-01-07"
    ∧ ("2005-10-20" : String) ≠ "2116-01-07" := by
  constructor
  · decide
  · decide

/-- C5 witness: the sensitivity theorem applied at concrete arguments. -/
theorem match_id_argument_sensitivity_witness :
    (("UCL" : String) ≠ "UEL"
      ∧ generate_match_id "UCL" "2024/2025" "FINAL" "Inter" "PSG" "2025-05-31"
          ≠ generate_match_id "UEL" "2024/2025" "FINAL" "Inter" "PSG" "2025-05-31")
    ∧ (("Inter" : String) ≠ "PSG" ∧ '|' ∉ ("Inter" : String).data ∧ '|' ∉ ("PSG" : String).data
      ∧ matchString "UCL" "2024/2025" "FINAL" "Inter" "PSG" "2025-05-31"
          ≠ matchString "UCL" "2024/2025" "FINAL" "PSG" "Inter" "2025-05-31")
    ∧ (("2025-05-31" : String) ≠ "2025-06-01"
      ∧ matchString "UCL" "2024/2025" "FINAL" "Inter" "PSG" "2025-05-31"
          ≠ matchString "UCL" "2024/2025" "FINAL" "Inter" "PSG" "2025-06-01") :=
  ⟨⟨by decide, match_id_argument_sensitivity.2.1 "UCL" "UEL" "2024/2025" "FINAL" "Inter"
      "PSG" "2025-05-31" (by decide)⟩,
   ⟨by decide, by decide, by decide,
    match_id_argument_sensitivity.2.2.2.2.2.2.2 "UCL" "2024/2025" "FINAL" "Inter" "PSG"
      "2025-05-31" (by decide) (by decide) (by decide)⟩,
   ⟨by decide, match_id_argument_sensitivity.2.2.2.2.2.2.1 "UCL" "2024/2025" "FINAL"
      "Inter" "PSG" "2025-05-31" "2025-06-01" (by decide)⟩⟩

/-! ## Date-component lemmas -/

theorem mkDate_some (y m d : Int) (dt : PyDate) (h : mkDate y m d = some dt) :
    dt = ⟨y, m, d⟩ := by
  unfold mkDate at h
  split at h
  · exact (Option.some.injEq _ _ ▸ h).symm
  · exact absurd h (by simp)

theorem dateLt_iff (a b : PyDate) : dateLt a b = true ↔
    (a.year < b.year ∨ (a.year = b.year ∧
      (a.month < b.month ∨ (a.month = b.month ∧ a.day < b.day)))) := by
  simp [dateLt]

theorem dateLe_iff (a b : PyDate) : dateLe a b = true ↔
    (a.year < b.year ∨ (a.year = b.year ∧
      (a.month < b.month ∨ (a.month = b.month ∧ a.day ≤ b.day)))) := by
  simp [dateLe]

theorem dateLe_of_not_lt (a b : PyDate) (h : dateLt a b = false) :
    dateLe b a = true := by
  have h2 : ¬ (dateLt a b = true) := by simp [h]
  rw [dateLt_iff] at h2
  rw [dateLe_iff]
  omega

/-- C6: the no-year `DD.MM` inference.  The boundary instance: `"31.12"`
parsed with "now" in January resolves to December 31 of the prior year.  The
general clauses characterize `inferDMDate` (the core of `parse_date`'s
year-less branch) exactly as the claim words it, and show that the inferred
date is never in the future relative to `now`. -/
theorem date_inference_boundary :
    parse_date ⟨2026, 1, 15⟩ "31.12" = some "2025-12-31"
    ∧ (∀ (now : PyDate) (day month : Int) (dt0 : PyDate),
        mkDate (if month > now.month then now.year - 1 else now.year) month day
          = some dt0 →
        inferDMDate now day month =
          if dateLt now dt0 = true then
            mkDate ((if month > now.month then now.year - 1 else now.year) - 1)
              month day
          else some dt0)
    ∧ (∀ (now : PyDate) (day month : Int) (dt : PyDate),
        inferDMDate now day month = some dt → dateLe dt now = true) := by
  refine ⟨by decide, ?_, ?_⟩
  · intro now day month dt0 h
    simp only [inferDMDate]
    rw [h]
  · intro now day month dt hEq
    simp only [inferDMDate] at hEq
    cases hmk : mkDate (if month > now.month then now.year - 1 else now.year)
        month day with
    | none => simp only [hmk] at hEq; exact absurd hEq (by simp)
    | some dt0 =>
      simp only [hmk] at hEq
      have hdt0 := mkDate_some _ _ _ _ hmk
      by_cases hf : dateLt now dt0 = true
      · rw [if_pos hf] at hEq
        have hdt := mkDate_some _ _ _ _ hEq
        subst hdt; subst hdt0
        by_cases hm : month > now.month <;>
          simp only [hm, if_true, if_false, ite_true, ite_false, dateLt_iff,
            dateLe_iff] at hf ⊢ <;>
          omega
      · rw [if_neg hf] at hEq
        have hd : dt0 = dt := by injection hEq
        subst hd
        exact dateLe_of_not_lt _ _ (by simpa using hf)

/-- C6 witness: the characterization and non-futurity clauses applied at the
claim's own boundary instance. -/
theorem date_inference_boundary_witness :
    (inferDMDate ⟨2026, 1, 15⟩ 31 12 = some ⟨2025, 12, 31⟩)
    ∧ dateLe ⟨2025, 12, 31⟩ ⟨2026, 1, 15⟩ = true :=
  ⟨by decide,
   date_inference_boundary.2.2 ⟨2026, 1, 15⟩ 31 12 ⟨2025, 12, 31⟩ (by decide)⟩

/-! ## Team classifier (C8) -/

/-- C8: the classifier fails closed on inputs shorter than 3 visible
characters after trimming, and the specification's literal table holds. -/
theorem club_classifier_table :
    (∀ s : String, (pyStrip s).length < 3 → is_club_team s = false)
    ∧ is_club_team "England" = false
    ∧ is_club_team "Real Madrid" = true
    ∧ is_club_team "FC" = false
    ∧ is_club_team "Bayern Munich" = true
    ∧ is_club_team "Spain national team" = false
    ∧ is_club_team "Croatia" = false
    ∧ is_club_team "Athletic Bilbao" = true := by
  refine ⟨?_, by decide, by decide, by decide, by decide, by decide, by decide, by decide⟩
  intro s h
  simp [is_club_team, h]

/-- C8 witness: the short-input clause at a concrete two-character input. -/
theorem club_classifier_table_witness :
    (pyStrip " ab ").length < 3 ∧ is_club_team " ab " = false :=
  ⟨by decide, club_classifier_table.1 " ab " (by decide)⟩

/-! ## Missing league-phase window configuration (C9) -/

/-- C9 (amended): when either league-phase window key is missing (or empty)
for the competition, the date-range check returns true for every date except
the empty string and the literal sentinel `2024-01-01`, which are rejected
before the configuration lookup. -/
theorem missing_window_includes_all :
    ∀ (match_date competition_code : String) (params : List (String × String)),
    match_date ≠ "" → match_date ≠ "2024-01-01" →
    (truthyO (pget params (competition_code ++ "_LEAGUE_PHASE_INITIAL_DATE")) = false
      ∨ truthyO (pget params (competition_code ++ "_LEAGUE_PHASE_END_DATE")) = false) →
    is_match_in_league_phase match_date competition_code params = true := by
  intro md cc ps h1 h2 h3
  simp only [is_match_in_league_phase]
  rw [if_neg (by simp [h1, h2])]
  rcases h3 with h3 | h3 <;> simp [h3]

/-- C9 counterexample: the sentinel `2024-01-01` is a well-formed calendar
date (it parses), yet with the window configuration missing the check
returns false for it, not true — the degradation is not "include every
well-formed date". -/
theorem sentinel_rejected_without_window :
    is_match_in_league_phase "2024-01-01" "UCL" [] = false
    ∧ (parseYMD "2024-01-01").isSome = true := by
  constructor
  · decide
  · decide

/-- C9 witness: a date accepted under a missing configuration. -/
theorem missing_window_includes_all_witness :
    (("2099-12-31" : String) ≠ "" ∧ ("2099-12-31" : String) ≠ "2024-01-01"
      ∧ truthyO (pget [] ("UCL" ++ "_LEAGUE_PHASE_INITIAL_DATE")) = false)
    ∧ is_match_in_league_phase "2099-12-31" "UCL" [] = true :=
  ⟨⟨by decide, by decide, by decide⟩,
   missing_window_includes_all "2099-12-31" "UCL" [] (by decide) (by decide)
     (Or.inl (by decide))⟩

/-! ## Phase-window precedence (C7) -/

theorem daysInMonth_ge_28 (y m : Int) : 28 ≤ daysInMonth y m := by
  unfold daysInMonth
  split_ifs <;> omega

theorem mkDate_valid (y m d : Int) (h1 : 1 ≤ y) (h2 : y ≤ 9999) (h3 : 1 ≤ m)
    (h4 : m ≤ 12) (h5 : 1 ≤ d) (h6 : d ≤ daysInMonth y m) :
    mkDate y m d = some ⟨y, m, d⟩ := by
  unfold mkDate
  rw [if_pos]
  simp only [Bool.and_eq_true, decide_eq_true_eq]
  exact ⟨⟨⟨⟨⟨h1, h2⟩, h3⟩, h4⟩, h5⟩, h6⟩

theorem mkDate_may (y d : Int) (h1 : 1 ≤ y) (h2 : y ≤ 9999) (h5 : 1 ≤ d)
    (h6 : d ≤ 31) : mkDate y 5 d = some ⟨y, 5, d⟩ := by
  apply mkDate_valid y 5 d h1 h2 (by norm_num) (by norm_num) h5
  unfold daysInMonth
  norm_num
  omega

theorem mkDate_le28 (y m d : Int) (h1 : 1 ≤ y) (h2 : y ≤ 9999) (h3 : 1 ≤ m)
    (h4 : m ≤ 12) (h5 : 1 ≤ d) (h6 : d ≤ 28) : mkDate y m d = some ⟨y, m, d⟩ := by
  apply mkDate_valid y m d h1 h2 h3 h4 h5
  have := daysInMonth_ge_28 y m
  omega

theorem mkDate_sep (y d : Int) (h1 : 1 ≤ y) (h2 : y ≤ 9999) (h5 : 1 ≤ d)
    (h6 : d ≤ 30) : mkDate y 9 d = some ⟨y, 9, d⟩ := by
  apply mkDate_valid y 9 d h1 h2 (by norm_num) (by norm_num) h5
  unfold daysInMonth
  norm_num
  omega


theorem verdict5 (w1a w1b w2a w2b w3a w3b w4a w4b w5a w5b fd dt : PyDate)
    (p1 p2 p3 p4 p5 : String) :
    (if (dateLe w1a dt && dateLe dt w1b) = true then p1
     else if (dateLe w2a dt && dateLe dt w2b) = true then p2
     else if (dateLe w3a dt && dateLe dt w3b) = true then p3
     else if (dateLe w4a dt && dateLe dt w4b) = true then p4
     else if (dateLe w5a dt && dateLe dt w5b) = true then p5
     else if dt = fd then "FINAL" else "UNKNOWN")
    = match Option.map (fun w => w.1)
        (List.find? (fun w => dateLe w.2.1 dt && dateLe dt w.2.2)
          [(p1, w1a, w1b), (p2, w2a, w2b), (p3, w3a, w3b), (p4, w4a, w4b),
           (p5, w5a, w5b)]) with
      | some ph => ph
      | none => if dt = fd then "FINAL" else "UNKNOWN" := by
  by_cases c1 : (dateLe w1a dt && dateLe dt w1b) = true
  · simp [List.find?, c1]
  · by_cases c2 : (dateLe w2a dt && dateLe dt w2b) = true
    · simp [List.find?, c1, c2]
    · by_cases c3 : (dateLe w3a dt && dateLe dt w3b) = true
      · simp [List.find?, c1, c2, c3]
      · by_cases c4 : (dateLe w4a dt && dateLe dt w4b) = true
        · simp [List.find?, c1, c2, c3, c4]
        · by_cases c5 : (dateLe w5a dt && dateLe dt w5b) = true
          · simp [List.find?, c1, c2, c3, c4, c5]
          · simp [List.find?, c1, c2, c3, c4, c5]

/-- C7 (amended): for the three competition codes, on a parseable non-sentinel
date and a season whose first year parses to `sy` with `1 ≤ sy ≤ 9998`,
`infer_phase_from_date` returns exactly the verdict of the per-competition
phase calendar: the first inclusive window (in the order LEAGUE_PHASE,
KNOCKOUT_PHASE, ROUND_OF_16, QUARTER_FINAL, SEMI_FINAL) containing the date,
else FINAL exactly on the competition's final date, else UNKNOWN; the three
final dates differ pairwise, and a single date can be FINAL for UEL or UECL
while UNKNOWN for the others. -/
theorem phase_window_precedence :
    (∀ (cc md season : String) (dt : PyDate) (sy : Int),
      (cc = "UCL" ∨ cc = "UEL" ∨ cc = "UECL") →
      md ≠ "2024-01-01" →
      parseYMD md = some dt →
      pyInt ((pySplitChar season '/').getD 0 "") = some sy →
      1 ≤ sy → sy ≤ 9998 →
      infer_phase_from_date cc md season = windowsVerdict cc sy dt)
    ∧ (∀ sy : Int, finalDay "UCL" sy ≠ finalDay "UEL" sy
        ∧ finalDay "UEL" sy ≠ finalDay "UECL" sy
        ∧ finalDay "UCL" sy ≠ finalDay "UECL" sy)
    ∧ infer_phase_from_date "UEL" "2025-05-20" "2024/2025" = "FINAL"
    ∧ infer_phase_from_date "UCL" "2025-05-20" "2024/2025" = "UNKNOWN"
    ∧ infer_phase_from_date "UECL" "2025-05-27" "2024/2025" = "FINAL"
    ∧ infer_phase_from_date "UEL" "2025-05-27" "2024/2025" = "UNKNOWN" := by
  refine ⟨?_, ?_, by decide, by decide, by decide, by decide⟩
  · intro cc md season dt sy hcc hmd hparse hsy h1 h9998
    have hmdne : md ≠ "" := by
      intro h
      rw [h] at hparse
      rw [show parseYMD "" = none from rfl] at hparse
      exact Option.noConfusion hparse
    simp only [infer_phase_from_date]
    rw [if_neg (by simp [hmdne, hmd])]
    simp only [hparse, hsy]
    have e01 : mkDate sy 9 16 = some ⟨sy, 9, 16⟩ :=
      mkDate_sep sy 16 h1 (by omega) (by norm_num) (by norm_num)
    have e02 : mkDate (sy + 1) 1 28 = some ⟨sy + 1, 1, 28⟩ :=
      mkDate_le28 (sy + 1) 1 28 (by omega) (by omega) (by norm_num) (by norm_num)
        (by norm_num) (by norm_num)
    have e03 : mkDate (sy + 1) 2 17 = some ⟨sy + 1, 2, 17⟩ :=
      mkDate_le28 (sy + 1) 2 17 (by omega) (by omega) (by norm_num) (by norm_num)
        (by norm_num) (by norm_num)
    have e04 : mkDate (sy + 1) 2 25 = some ⟨sy + 1, 2, 25⟩ :=
      mkDate_le28 (sy + 1) 2 25 (by omega) (by omega) (by norm_num) (by norm_num)
        (by norm_num) (by norm_num)
    have e05 : mkDate (sy + 1) 3 10 = some ⟨sy + 1, 3, 10⟩ :=
      mkDate_le28 (sy + 1) 3 10 (by omega) (by omega) (by norm_num) (by norm_num)
        (by norm_num) (by norm_num)
    have e06 : mkDate (sy + 1) 3 18 = some ⟨sy + 1, 3, 18⟩ :=
      mkDate_le28 (sy + 1) 3 18 (by omega) (by omega) (by norm_num) (by norm_num)
        (by norm_num) (by norm_num)
    have e07 : mkDate (sy + 1) 4 7 = some ⟨sy + 1, 4, 7⟩ :=
      mkDate_le28 (sy + 1) 4 7 (by omega) (by omega) (by norm_num) (by norm_num)
        (by norm_num) (by norm_num)
    have e08 : mkDate (sy + 1) 4 15 = some ⟨sy + 1, 4, 15⟩ :=
      mkDate_le28 (sy + 1) 4 15 (by omega) (by omega) (by norm_num) (by norm_num)
        (by norm_num) (by norm_num)
    have e09 : mkDate (sy + 1) 4 28 = some ⟨sy + 1, 4, 28⟩ :=
      mkDate_le28 (sy + 1) 4 28 (by omega) (by omega) (by norm_num) (by norm_num)
        (by norm_num) (by norm_num)
    have e10 : mkDate (sy + 1) 5 6 = some ⟨sy + 1, 5, 6⟩ :=
      mkDate_may (sy + 1) 6 (by omega) (by omega) (by norm_num) (by norm_num)
    have e11 : mkDate (sy + 1) 5 30 = some ⟨sy + 1, 5, 30⟩ :=
      mkDate_may (sy + 1) 30 (by omega) (by omega) (by norm_num) (by norm_num)
    have e12 : mkDate (sy + 1) 2 19 = some ⟨sy + 1, 2, 19⟩ :=
      mkDate_le28 (sy + 1) 2 19 (by omega) (by omega) (by norm_num) (by norm_num)
        (by norm_num) (by norm_num)
    have e13 : mkDate (sy + 1) 3 12 = some ⟨sy + 1, 3, 12⟩ :=
      mkDate_le28 (sy + 1) 3 12 (by omega) (by omega) (by norm_num) (by norm_num)
        (by norm_num) (by norm_num)
    have e14 : mkDate (sy + 1) 3 19 = some ⟨sy + 1, 3, 19⟩ :=
      mkDate_le28 (sy + 1) 3 19 (by omega) (by omega) (by norm_num) (by norm_num)
        (by norm_num) (by norm_num)
    have e15 : mkDate (sy + 1) 4 9 = some ⟨sy + 1, 4, 9⟩ :=
      mkDate_le28 (sy + 1) 4 9 (by omega) (by omega) (by norm_num) (by norm_num)
        (by norm_num) (by norm_num)
    have e16 : mkDate (sy + 1) 4 16 = some ⟨sy + 1, 4, 16⟩ :=
      mkDate_le28 (sy + 1) 4 16 (by omega) (by omega) (by norm_num) (by norm_num)
        (by norm_num) (by norm_num)
    have e17 : mkDate (sy + 1) 4 30 = some ⟨sy + 1, 4, 30⟩ :=
      mkDate_valid (sy + 1) 4 30 (by omega) (by omega) (by norm_num) (by norm_num)
        (by norm_num) (by unfold daysInMonth; norm_num)
    have e18 : mkDate (sy + 1) 5 7 = some ⟨sy + 1, 5, 7⟩ :=
      mkDate_may (sy + 1) 7 (by omega) (by omega) (by norm_num) (by norm_num)
    have e19 : mkDate (sy + 1) 5 20 = some ⟨sy + 1, 5, 20⟩ :=
      mkDate_may (sy + 1) 20 (by omega) (by omega) (by norm_num) (by norm_num)
    have e20 : mkDate (sy + 1) 5 27 = some ⟨sy + 1, 5, 27⟩ :=
      mkDate_may (sy + 1) 27 (by omega) (by omega) (by norm_num) (by norm_num)
    rcases hcc with h | h | h <;> subst h
    · show (inferPhaseUCL sy dt).getD "UNKNOWN" = windowsVerdict "UCL" sy dt
      have hv : windowsVerdict "UCL" sy dt =
        match Option.map (fun w => w.1)
          (List.find? (fun w => dateLe w.2.1 dt && dateLe dt w.2.2)
            [("LEAGUE_PHASE", ⟨sy, 9, 16⟩, ⟨sy + 1, 1, 28⟩),
             ("KNOCKOUT_PHASE", ⟨sy + 1, 2, 17⟩, ⟨sy + 1, 2, 25⟩),
             ("ROUND_OF_16", ⟨sy + 1, 3, 10⟩, ⟨sy + 1, 3, 18⟩),
             ("QUARTER_FINAL", ⟨sy + 1, 4, 7⟩, ⟨sy + 1, 4, 15⟩),
             ("SEMI_FINAL", ⟨sy + 1, 4, 28⟩, ⟨sy + 1, 5, 6⟩)]) with
        | some ph => ph
        | none => if dt = (⟨sy + 1, 5, 30⟩ : PyDate) then "FINAL" else "UNKNOWN" := rfl
      rw [hv]
      simp only [inferPhaseUCL, e01, e02, e03, e04, e05, e06, e07, e08, e09, e10, e11, Option.getD_some]
      exact verdict5 _ _ _ _ _ _ _ _ _ _ _ dt "LEAGUE_PHASE" "KNOCKOUT_PHASE"
        "ROUND_OF_16" "QUARTER_FINAL" "SEMI_FINAL"
    · show (inferPhaseUEL sy dt).getD "UNKNOWN" = windowsVerdict "UEL" sy dt
      have hv : windowsVerdict "UEL" sy dt =
        match Option.map (fun w => w.1)
          (List.find? (fun w => dateLe w.2.1 dt && dateLe dt w.2.2)
            [("LEAGUE_PHASE", ⟨sy, 9, 16⟩, ⟨sy + 1, 1, 28⟩),
             ("KNOCKOUT_PHASE", ⟨sy + 1, 2, 19⟩, ⟨sy + 1, 2, 25⟩),
             ("ROUND_OF_16", ⟨sy + 1, 3, 12⟩, ⟨sy + 1, 3, 19⟩),
             ("QUARTER_FINAL", ⟨sy + 1, 4, 9⟩, ⟨sy + 1, 4, 16⟩),
             ("SEMI_FINAL", ⟨sy + 1, 4, 30⟩, ⟨sy + 1, 5, 7⟩)]) with
        | some ph => ph
        | none => if dt = (⟨sy + 1, 5, 20⟩ : PyDate) then "FINAL" else "UNKNOWN" := rfl
      rw [hv]
      simp only [inferPhaseUEL, e12, e04, e13, e14, e15, e16, e17, e18, e19, e01, e02, Option.getD_some]
      exact verdict5 _ _ _ _ _ _ _ _ _ _ _ dt "LEAGUE_PHASE" "KNOCKOUT_PHASE"
        "ROUND_OF_16" "QUARTER_FINAL" "SEMI_FINAL"
    · show (inferPhaseUECL sy dt).getD "UNKNOWN" = windowsVerdict "UECL" sy dt
      have hv : windowsVerdict "UECL" sy dt =
        match Option.map (fun w => w.1)
          (List.find? (fun w => dateLe w.2.1 dt && dateLe dt w.2.2)
            [("LEAGUE_PHASE", ⟨sy, 9, 16⟩, ⟨sy + 1, 1, 28⟩),
             ("KNOCKOUT_PHASE", ⟨sy + 1, 2, 19⟩, ⟨sy + 1, 2, 25⟩),
             ("ROUND_OF_16", ⟨sy + 1, 3, 12⟩, ⟨sy + 1, 3, 19⟩),
             ("QUARTER_FINAL", ⟨sy + 1, 4, 9⟩, ⟨sy + 1, 4, 16⟩),
             ("SEMI_FINAL", ⟨sy + 1, 4, 30⟩, ⟨sy + 1, 5, 7⟩)]) with
        | some ph => ph
        | none => if dt = (⟨sy + 1, 5, 27⟩ : PyDate) then "FINAL" else "UNKNOWN" := rfl
      rw [hv]
      simp only [inferPhaseUECL, e12, e04, e13, e14, e15, e16, e17, e18, e20, e01, e02, Option.getD_some]
      exact verdict5 _ _ _ _ _ _ _ _ _ _ _ dt "LEAGUE_PHASE" "KNOCKOUT_PHASE"
        "ROUND_OF_16" "QUARTER_FINAL" "SEMI_FINAL"
  · intro sy
    refine ⟨?_, ?_, ?_⟩ <;> simp [finalDay]

/-- C7 counterexample: the sentinel date `2024-01-01` lies inside the
2023/2024 UCL LEAGUE_PHASE window, yet `infer_phase_from_date` returns
UNKNOWN for it — so the function does not return the phase of every
containing window. -/
theorem sentinel_inside_window_unknown :
    infer_phase_from_date "UCL" "2024-01-01" "2023/2024" = "UNKNOWN"
    ∧ firstWindowPhase ⟨2024, 1, 1⟩ (phaseWindows "UCL" 2023) = some "LEAGUE_PHASE"
    ∧ parseYMD "2024-01-01" = some ⟨2024, 1, 1⟩
    ∧ pyInt ((pySplitChar "2023/2024" '/').getD 0 "") = some 2023 := by
  refine ⟨by decide, by decide, by decide, by decide⟩

/-- C7 witness: the refinement applied at a concrete league-phase date. -/
theorem phase_window_precedence_witness :
    (parseYMD "2024-11-06" = some ⟨2024, 11, 6⟩
      ∧ pyInt ((pySplitChar "2024/2025" '/').getD 0 "") = some 2024)
    ∧ infer_phase_from_date "UCL" "2024-11-06" "2024/2025"
        = windowsVerdict "UCL" 2024 ⟨2024, 11, 6⟩
    ∧ windowsVerdict "UCL" 2024 ⟨2024, 11, 6⟩ = "LEAGUE_PHASE" :=
  ⟨⟨by decide, by decide⟩,
   phase_window_precedence.1 "UCL" "2024-11-06" "2024/2025" ⟨2024, 11, 6⟩ 2024
     (Or.inl rfl) (by decide) (by decide) (by decide) (by decide) (by decide),
   by decide⟩

/-! ## Extraction-loop invariants (C1–C4) -/

theorem teamsFinalCheck_ne (p q : String × String) (h : teamsFinalCheck p = some q) :
    q.1 ≠ q.2 := by
  unfold teamsFinalCheck at h
  split at h
  · exact absurd h (by simp)
  · split at h
    · exact absurd h (by simp)
    · rename_i hne
      have hpq : p = q := by injection h
      subst hpq
      exact hne

theorem resolveTeams_ne (el : Node) (ft : String) (q : String × String)
    (h : resolveTeams el ft = some q) : q.1 ≠ q.2 := by
  unfold resolveTeams at h
  cases hr : resolveTeamsRaw el ft with
  | none =>
    simp only [hr] at h
    exact absurd h (by simp)
  | some p =>
    simp only [hr] at h
    exact teamsFinalCheck_ne p q h

/-- Either the element is skipped (records unchanged) or exactly one record
is appended, and that record has distinct teams and a nonempty, non-sentinel
date (the guards on the append path). -/
theorem processElement_records (now : PyDate) (cc : String)
    (ps : List (String × String)) (lim : Option Nat) (st : ExtractState)
    (f : Fragment) :
    (processElement now cc ps lim st f).1.records = st.records ∨
    ∃ r : MatchRecord,
      (processElement now cc ps lim st f).1.records = st.records ++ [r]
      ∧ r.HOME_TEAM ≠ r.AWAY_TEAM ∧ r.MATCH_DATE ≠ "" ∧ r.MATCH_DATE ≠ "2024-01-01" := by
  cases hteams : resolveTeams f.el (getTextSep f.el " | ") with
  | none => left; simp [processElement, hteams]
  | some teams =>
    cases hscore : resolveScore f.el (getTextSep f.el " | ") with
    | none => left; simp [processElement, hteams, hscore]
    | some goals =>
      simp only [processElement, hteams, hscore]
      split
      · split
        · left; rfl
        · split
          · left; rfl
          · right
            rename_i hdate hrange
            refine ⟨_, rfl, ?_, ?_, ?_⟩
            · exact resolveTeams_ne _ _ _ hteams
            · simp only [Bool.or_eq_true, decide_eq_true_eq, not_or] at hdate
              exact hdate.1
            · simp only [Bool.or_eq_true, decide_eq_true_eq, not_or] at hdate
              exact hdate.2
      · left; rfl

/-- The loop only ever appends to the accumulated records, and every appended
record has distinct teams and a nonempty non-sentinel date. -/
theorem extractLoop_records (now : PyDate) (cc : String)
    (ps : List (String × String)) (lim : Option Nat) :
    ∀ (fs : List Fragment) (st : ExtractState),
    ∃ tail : List MatchRecord,
      (extractLoop now cc ps lim fs st).records = st.records ++ tail
      ∧ tail.all (fun r => r.HOME_TEAM != r.AWAY_TEAM && r.MATCH_DATE != ""
          && r.MATCH_DATE != "2024-01-01") = true := by
  intro fs
  induction fs with
  | nil => intro st; exact ⟨[], by simp [extractLoop]⟩
  | cons f fs ih =>
    intro st
    simp only [extractLoop]
    rcases processElement_records now cc ps lim st f with heq | ⟨r, heq, h1, h2, h3⟩
    · split
      · exact ⟨[], by simp [heq]⟩
      · obtain ⟨tail, ht, hall⟩ := ih (processElement now cc ps lim st f).1
        exact ⟨tail, by rw [ht, heq], hall⟩
    · have hrb : (r.HOME_TEAM != r.AWAY_TEAM && r.MATCH_DATE != ""
          && r.MATCH_DATE != "2024-01-01") = true := by
        simp [bne_iff_ne, h1, h2, h3]
      split
      · exact ⟨[r], by simp [heq], by simp [hrb]⟩
      · obtain ⟨tail, ht, hall⟩ := ih (processElement now cc ps lim st f).1
        refine ⟨r :: tail, ?_, ?_⟩
        · rw [ht, heq, List.append_assoc]
          rfl
        · simp [hall, hrb]

/-- Every record emitted by the main extractor has distinct teams and a
nonempty, non-sentinel match date. -/
theorem extract_main_invariant (now : PyDate) (els : List Fragment) (cc : String)
    (lim : Option Nat) (ps : List (String × String)) :
    (extract_matches_from_flashscore_elements now els cc lim ps).all
      (fun r => r.HOME_TEAM != r.AWAY_TEAM && r.MATCH_DATE != ""
        && r.MATCH_DATE != "2024-01-01") = true := by
  unfold extract_matches_from_flashscore_elements
  obtain ⟨tail, ht, hall⟩ := extractLoop_records now cc ps lim els ⟨[], "", "UNKNOWN"⟩
  rw [ht]
  simpa using hall

theorem all_weaken {P Q : MatchRecord → Bool} (l : List MatchRecord)
    (himp : ∀ r, P r = true → Q r = true) (h : l.all P = true) :
    l.all Q = true := by
  rw [List.all_eq_true] at h ⊢
  exact fun r hr => himp r (h r hr)

/-- C1 (amended): the main extractor never resolves an absent date — every
emitted record has a nonempty date — and a fragment with no recoverable date
and no carried-forward date is resolved to the current processing date and
emitted, not dropped. -/
theorem no_date_fallback_behavior :
    (∀ (now : PyDate) (els : List Fragment) (cc : String) (lim : Option Nat)
        (ps : List (String × String)),
      (extract_matches_from_flashscore_elements now els cc lim ps).all
        (fun r => r.MATCH_DATE != "") = true)
    ∧ (extract_matches_from_flashscore_elements ⟨2025, 6, 10⟩ [fragTeamsScore]
        "UCL" none []).map MatchRecord.MATCH_DATE = [fmtYMD ⟨2025, 6, 10⟩] := by
  constructor
  · intro now els cc lim ps
    exact all_weaken _ (fun r h => by simp only [Bool.and_eq_true] at h; exact h.1.2)
      (extract_main_invariant now els cc lim ps)
  · decide

set_option maxRecDepth 40000 in
/-- C1 counterexample: a fragment with two club teams, a score and no date
token, processed first in the run (no carried-forward date), is emitted by
the full per-competition pipeline with its match date equal to the current
processing date. -/
theorem current_date_record_emitted :
    (fetch_competition_records ⟨2025, 3, 5⟩ "UCL" none [] [fragTeamsScore]
        soupPlain).map MatchRecord.MATCH_DATE = [fmtYMD ⟨2025, 3, 5⟩]
    ∧ fmtYMD ⟨2025, 3, 5⟩ = "2025-03-05" := by
  constructor
  · decide
  · decide

/-- C2 (amended): the pipeline performs no deduplication — the loop only
appends — so two fragments producing identical records yield two identical
records (same match id) in the emitted per-competition output. -/
theorem duplicates_not_collapsed :
    (∀ (now : PyDate) (cc : String) (ps : List (String × String))
        (lim : Option Nat) (fs : List Fragment) (st : ExtractState),
      ∃ tail : List MatchRecord,
        (extractLoop now cc ps lim fs st).records = st.records ++ tail)
    ∧ (fetch_competition_records ⟨2025, 3, 5⟩ "UCL" none []
        [fragTeamsScore, fragTeamsScore] soupPlain).length = 2
    ∧ (fetch_competition_records ⟨2025, 3, 5⟩ "UCL" none []
        [fragTeamsScore, fragTeamsScore] soupPlain)[0]?
      = (fetch_competition_records ⟨2025, 3, 5⟩ "UCL" none []
        [fragTeamsScore, fragTeamsScore] soupPlain)[1]? := by
  refine ⟨?_, ?_, ?_⟩
  · intro now cc ps lim fs st
    obtain ⟨tail, ht, _⟩ := extractLoop_records now cc ps lim fs st
    exact ⟨tail, ht⟩
  · decide
  · rfl

set_option maxRecDepth 40000 in
/-- C2 counterexample: two identical fragments in one run produce two output
records with the same match id — the final per-competition output does
contain two records with the same `match_id`. -/
theorem duplicate_match_ids_in_output :
    ((fetch_competition_records ⟨2025, 3, 5⟩ "UCL" none []
        [fragTeamsScore, fragTeamsScore] soupPlain).map MatchRecord.MATCH_ID).length = 2
    ∧ ¬ ((fetch_competition_records ⟨2025, 3, 5⟩ "UCL" none []
        [fragTeamsScore, fragTeamsScore] soupPlain).map MatchRecord.MATCH_ID).Nodup := by
  constructor
  · decide
  · decide

/-- C3 (amended): every record emitted by the main extractor has
`home_team ≠ away_team` as exact strings (the comparison guarding the append
is exact, not case-normalized, and the fallback HTML path checks nothing). -/
theorem emitted_teams_distinct :
    ∀ (now : PyDate) (els : List Fragment) (cc : String) (lim : Option Nat)
      (ps : List (String × String)),
    (extract_matches_from_flashscore_elements now els cc lim ps).all
      (fun r => r.HOME_TEAM != r.AWAY_TEAM) = true := by
  intro now els cc lim ps
  exact all_weaken _ (fun r h => by simp only [Bool.and_eq_true] at h; exact h.1.1)
    (extract_main_invariant now els cc lim ps)

set_option maxRecDepth 40000 in
/-- C3 counterexample: a fragment whose participants are `FOO` and `Foo`
passes the exact-string distinctness check and is emitted, although the two
names are equal under case- (and whitespace-) normalized comparison. -/
theorem case_variant_teams_emitted :
    (fetch_competition_records ⟨2025, 6, 10⟩ "UCL" none [] [fragCasePair]
        soupPlain).map (fun r => (r.HOME_TEAM, r.AWAY_TEAM)) = [("FOO", "Foo")]
    ∧ pyLower (pyStrip "FOO") = pyLower (pyStrip "Foo") := by
  constructor
  · decide
  · decide

/-- C4 (amended): the main extractor drops every candidate whose resolved
date is the sentinel `2024-01-01` (or empty), and the league-phase filter
rejects the sentinel unconditionally; the fallback HTML-structure path has
no such check. -/
theorem sentinel_date_filtered_main_path :
    (∀ (now : PyDate) (els : List Fragment) (cc : String) (lim : Option Nat)
        (ps : List (String × String)),
      (extract_matches_from_flashscore_elements now els cc lim ps).all
        (fun r => r.MATCH_DATE != "2024-01-01") = true)
    ∧ (∀ (cc : String) (ps : List (String × String)),
        is_match_in_league_phase "2024-01-01" cc ps = false) := by
  constructor
  · intro now els cc lim ps
    exact all_weaken _ (fun r h => by simp only [Bool.and_eq_true] at h; exact h.2)
      (extract_main_invariant now els cc lim ps)
  · intro cc ps
    rfl

set_option maxRecDepth 40000 in
/-- C4 counterexample: when the processing date is 2024-01-01, the fallback
HTML-structure path emits a record whose match date is exactly the literal
placeholder `2024-01-01` — it reaches the emitted output in spite of the
other fields being valid. -/
theorem alt_path_emits_sentinel_date :
    (fetch_competition_records ⟨2024, 1, 1⟩ "UCL" none [] [] soupPlain).map
      MatchRecord.MATCH_DATE = ["2024-01-01"]
    ∧ (fetch_competition_records ⟨2024, 1, 1⟩ "UCL" none [] [] soupPlain).length = 1 := by
  constructor
  · decide
  · decide
